import Mathlib

/-!
# Pulp certificate validation examples

A shallow embedding of the three C programs under `playpen/certs`:

* `c_api_examples/cert_validation.c`          (namespace `CertValidation`)
* `c_api_examples/cert_validation_B.c`        (namespace `CertValidationB`)
* `chain_example/c_api_examples/cert_validation.c` (namespace `ChainExample`)

Each program is a straight line of OpenSSL and libc calls, every checked call
followed by `int_error(...)`, which never returns.  The embedding passes the
process state explicitly: the ordered list of external calls made so far (with
their arguments and results) and the text written to stdout and stderr.  The
results of the external calls are the input: one field of `Env` per call site.
-/

namespace Pulp

/-- A C pointer value; `0` is `NULL`. -/
abbrev Ptr := Nat

/-- Constants that the programs take from the OpenSSL headers.  The headers are
not part of the repository, so the values are parameters of the embedding. -/
structure Hdr where
  X509_V_FLAG_CRL_CHECK : Nat
  X509_V_FLAG_CRL_CHECK_ALL : Nat
  X509_FILETYPE_PEM : Int

/-- Modelled from the spec: the verification context type `X509_STORE_CTX` is
declared in the OpenSSL headers, not in the repository.  The source reads only
`stor->error`; `error_depth` and `current_cert` stand for the chain index and
the identity of the failing certificate that the verdict of the spec carries. -/
structure X509_STORE_CTX where
  error : Int
  error_depth : Int
  current_cert : Ptr

/-- One external call made by `main` or `handle_error`, with its arguments and,
where the call returns something, its result (last field).  The lookup
`X509_verify_cert_error_string` made by the callback is a pure function of the
error code and is not recorded. -/
inductive Call where
  | OpenSSL_add_all_algorithms
  | ERR_load_crypto_strings
  | fopen (path mode : String) (ret : Ptr)
  | fclose (fp : Ptr)
  | PEM_read_X509 (fp : Ptr) (ret : Ptr)
  | PEM_read_X509_CRL (fp : Ptr) (ret : Ptr)
  | X509_STORE_new (ret : Ptr)
  | X509_STORE_set_verify_cb_func (store : Ptr)
  | X509_STORE_load_locations (store : Ptr) (file dir : String) (ret : Int)
  | X509_STORE_set_default_paths (store : Ptr) (ret : Int)
  | X509_LOOKUP_file (ret : Ptr)
  | X509_STORE_add_lookup (store method : Ptr) (ret : Ptr)
  | X509_load_crl_file (lookup : Ptr) (file : String) (type : Int) (ret : Int)
  | X509_STORE_add_cert (store cert : Ptr) (ret : Int)
  | X509_STORE_add_crl (store crl : Ptr) (ret : Int)
  | X509_STORE_set_flags (store : Ptr) (flags : Nat)
  | sk_X509_new_null (ret : Ptr)
  | sk_X509_push (sk cert : Ptr) (ret : Int)
  | sk_X509_CRL_new_null (ret : Ptr)
  | sk_X509_CRL_push (sk crl : Ptr) (ret : Int)
  | X509_STORE_CTX_new (ret : Ptr)
  | X509_STORE_CTX_init (ctx store cert untrusted : Ptr) (ret : Int)
  | X509_STORE_CTX_set0_crls (ctx crls : Ptr)
  | X509_verify_cert (ctx : Ptr) (ret : Int)
  | ERR_print_errors_fp
  | exit (status : Int)
  deriving DecidableEq, Repr

/-- The state of a running process, as far as it can be observed. -/
structure State where
  trace : List Call
  stdout : String
  stderr : String

/-- A finished process: what it did, what it wrote, and its exit status. -/
structure Run where
  trace : List Call
  stdout : String
  stderr : String
  status : Int

/-- The state at entry of `main`. -/
def State.start : State := ⟨[], "", ""⟩

/-- Record an external call. -/
def State.call (s : State) (c : Call) : State :=
  { s with trace := s.trace ++ [c] }

/-- Text written by `printf`. -/
def State.printf (s : State) (text : String) : State :=
  { s with stdout := s.stdout ++ text }

/-- Text written to `stderr`. -/
def State.eprintf (s : State) (text : String) : State :=
  { s with stderr := s.stderr ++ text }

/-- The statement `return status;` of `main`. -/
def State.ret (s : State) (status : Int) : Run :=
  ⟨s.trace, s.stdout, s.stderr, status⟩

/-- The library call `exit(status)`: the process ends there. -/
def State.exit (s : State) (status : Int) : Run :=
  ⟨s.trace ++ [Call.exit status], s.stdout, s.stderr, status⟩

/-- What `X509_verify_cert` does as seen from the program: it either returns a
result, or invokes the verification callback with `ok` and a context and goes
on according to what the callback returned. -/
inductive VerifyRun where
  | ret (r : Int)
  | cb (ok : Int) (ctx : X509_STORE_CTX) (k : Int → VerifyRun)

/-- The call `X509_verify_cert(ctx)` with callback `cb` in force (the one that
`X509_STORE_set_verify_cb_func` put on the store): the callback is run each time
the library invokes it, then the call and its result are recorded. -/
def X509_verify_cert (cb : Int → X509_STORE_CTX → State → Int × State)
    (ctx : Ptr) : VerifyRun → State → Int × State
  | .ret r, s => (r, s.call (.X509_verify_cert ctx r))
  | .cb ok c k, s => X509_verify_cert cb ctx (k (cb ok c s).1) (cb ok c s).2

/-! ## Observations on a trace -/

/-- Number of calls of `X509_verify_cert` in a trace. -/
@[simp] def verifyCalls : List Call → Nat
  | [] => 0
  | .X509_verify_cert _ _ :: t => verifyCalls t + 1
  | _ :: t => verifyCalls t

/-- The calls made before the first call of `X509_verify_cert`, when there is one. -/
@[simp] def beforeVerify : List Call → Option (List Call)
  | [] => none
  | .X509_verify_cert _ _ :: _ => some []
  | c :: t => (beforeVerify t).map (c :: ·)

/-- The calls made before the first call of `X509_STORE_CTX_init`, when there is one. -/
@[simp] def beforeInit : List Call → Option (List Call)
  | [] => none
  | .X509_STORE_CTX_init _ _ _ _ _ :: _ => some []
  | c :: t => (beforeInit t).map (c :: ·)

/-- The arguments of the calls of `X509_STORE_set_flags` on `store`, in order. -/
@[simp] def setFlagsCalls (store : Ptr) : List Call → List Nat
  | [] => []
  | .X509_STORE_set_flags st f :: t =>
      if st = store then f :: setFlagsCalls store t else setFlagsCalls store t
  | _ :: t => setFlagsCalls store t

/-- The flags of `store` after a trace, for a store created with flags `flags0`:
each `X509_STORE_set_flags` ors its argument into them. -/
def storeFlags (flags0 : Nat) (store : Ptr) (tr : List Call) : Nat :=
  (setFlagsCalls store tr).foldl (· ||| ·) flags0

/-- The calls that change a store, directly or through a lookup of it. -/
@[simp] def isStoreMutation : Call → Bool
  | .X509_STORE_set_verify_cb_func _ => true
  | .X509_STORE_load_locations _ _ _ _ => true
  | .X509_STORE_set_default_paths _ _ => true
  | .X509_STORE_add_lookup _ _ _ => true
  | .X509_load_crl_file _ _ _ _ => true
  | .X509_STORE_add_cert _ _ _ => true
  | .X509_STORE_add_crl _ _ _ => true
  | .X509_STORE_set_flags _ _ => true
  | _ => false

/-- No call that changes a store comes at or after a call of
`X509_STORE_CTX_init`. -/
@[simp] def storeFrozenAfterInit : List Call → Bool
  | [] => true
  | .X509_STORE_CTX_init _ _ _ _ _ :: t => !(t.any isStoreMutation)
  | _ :: t => storeFrozenAfterInit t

/-- The statuses of the calls of `exit` in a trace, in order. -/
@[simp] def exitCalls : List Call → List Int
  | [] => []
  | .exit n :: t => n :: exitCalls t
  | _ :: t => exitCalls t

/-- What `X509_verify_cert` returns when the callback hands back `ok` unchanged. -/
def VerifyRun.result : VerifyRun → Int
  | .ret r => r
  | .cb ok _ k => (k ok).result

/-- The line printed on success. -/
def successText : String := "Certificate verified correctly!\n"

/-! ## c_api_examples/cert_validation.c -/

namespace CertValidation

/-- Results of the external calls of `c_api_examples/cert_validation.c`, one
field per call site, in source order. -/
structure Env where
  fopen_client : Ptr
  PEM_read_X509 : Ptr
  X509_STORE_new : Ptr
  X509_STORE_load_locations : Int
  X509_STORE_set_default_paths : Int
  X509_LOOKUP_file : Ptr
  X509_STORE_add_lookup : Ptr
  X509_load_crl_file : Int
  X509_STORE_CTX_new : Ptr
  X509_STORE_CTX_init : Int
  X509_verify_cert : VerifyRun
  /-- The library function from error code to text. -/
  X509_verify_cert_error_string : Int → String
  /-- The text `ERR_print_errors_fp` writes for the error queue. -/
  ERR_print_errors_fp : String

/-- Expansion of `__FILE__`. -/
def FILE : String := "cert_validation.c"

def CA_FILE : String := "../certs/Pulp_CA.cert"
def CA_DIR : String := "../certs/"
def CRL_FILE : String := "../certs/Pulp_CRL.pem"
def CLIENT_CERT : String := "../certs/Pulp_client.cert"

/-- `void handle_error(const char *file, int lineno, const char *msg)` -/
def handle_error (env : Env) (file : String) (lineno : Int) (msg : String) (s : State) : Run :=
  let s := s.eprintf (file ++ ":" ++ toString lineno ++ " " ++ msg ++ "\n")
  let s := (s.call .ERR_print_errors_fp).eprintf env.ERR_print_errors_fp
  s.exit (-1)

/-- `#define int_error(msg) handle_error(__FILE__, __LINE__, msg)`; the line is
that of the use. -/
def int_error (env : Env) (line : Int) (msg : String) (s : State) : Run :=
  handle_error env FILE line msg s

/-- `int verify_callback(int ok, X509_STORE_CTX *stor)` -/
def verify_callback (env : Env) (ok : Int) (stor : X509_STORE_CTX) (s : State) : Int × State :=
  let s := if ok = 0 then
      s.eprintf ("Error: " ++ env.X509_verify_cert_error_string stor.error ++ "\n")
    else s
  (ok, s)

/-- `int main(int argc, char *argv[])` -/
def main (K : Hdr) (env : Env) (argc : Int) (argv : List String) : Run :=
  let s := State.start
  let s := s.call .OpenSSL_add_all_algorithms
  let s := s.call .ERR_load_crypto_strings
  -- first read the client certificate
  let fp := env.fopen_client
  let s := s.call (.fopen CLIENT_CERT "r" fp)
  if fp = 0 then int_error env 39 "Error reading client certificate file" s else
  let cert := env.PEM_read_X509
  let s := s.call (.PEM_read_X509 fp cert)
  if cert = 0 then int_error env 42 "Error reading client certificate in file" s else
  let s := s.call (.fclose fp)
  -- create the cert store and set the verify callback
  let store := env.X509_STORE_new
  let s := s.call (.X509_STORE_new store)
  if store = 0 then int_error env 48 "Error creating X509_STORE_CTX object" s else
  let s := s.call (.X509_STORE_set_verify_cb_func store)
  -- load the CA certificates and CRLs
  let r := env.X509_STORE_load_locations
  let s := s.call (.X509_STORE_load_locations store CA_FILE CA_DIR r)
  if r ≠ 1 then int_error env 54 "Error loading the CA file or directory" s else
  let r := env.X509_STORE_set_default_paths
  let s := s.call (.X509_STORE_set_default_paths store r)
  if r ≠ 1 then int_error env 57 "Error loading the system-wide CA certificates" s else
  let m := env.X509_LOOKUP_file
  let s := s.call (.X509_LOOKUP_file m)
  let lookup := env.X509_STORE_add_lookup
  let s := s.call (.X509_STORE_add_lookup store m lookup)
  if lookup = 0 then int_error env 60 "Error creating X509_LOOKUP object" s else
  let r := env.X509_load_crl_file
  let s := s.call (.X509_load_crl_file lookup CRL_FILE K.X509_FILETYPE_PEM r)
  if r ≠ 1 then int_error env 63 "Error reading the CRL file" s else
  -- set the flags of the store so that the CRLs are consulted
  let s := s.call (.X509_STORE_set_flags store
    (K.X509_V_FLAG_CRL_CHECK ||| K.X509_V_FLAG_CRL_CHECK_ALL))
  -- create a verification context and set it up
  let verify_ctx := env.X509_STORE_CTX_new
  let s := s.call (.X509_STORE_CTX_new verify_ctx)
  if verify_ctx = 0 then int_error env 71 "Error creating X509_STORE_CTX object" s else
  let r := env.X509_STORE_CTX_init
  let s := s.call (.X509_STORE_CTX_init verify_ctx store cert 0 r)
  if r ≠ 1 then int_error env 74 "Error initializing verification context" s else
  -- verify the certificate
  let v := X509_verify_cert (verify_callback env) verify_ctx env.X509_verify_cert s
  let s := v.2
  if v.1 ≠ 1 then int_error env 79 "Error verifying the certificate" s else
  let s := s.printf "Certificate verified correctly!\n"
  s.ret 0

end CertValidation

/-! ## c_api_examples/cert_validation_B.c -/

namespace CertValidationB

/-- Results of the external calls of `c_api_examples/cert_validation_B.c`, one
field per call site, in source order. -/
structure Env where
  fopen_client : Ptr
  PEM_read_X509_client : Ptr
  fopen_ca : Ptr
  PEM_read_X509_ca : Ptr
  fopen_crl : Ptr
  PEM_read_X509_CRL : Ptr
  X509_STORE_new : Ptr
  X509_STORE_add_cert : Int
  X509_STORE_add_crl : Int
  sk_X509_new_null : Ptr
  sk_X509_CRL_new_null : Ptr
  sk_X509_CRL_push : Int
  X509_STORE_CTX_new : Ptr
  X509_STORE_CTX_init : Int
  X509_verify_cert : VerifyRun
  /-- The library function from error code to text. -/
  X509_verify_cert_error_string : Int → String
  /-- The text `ERR_print_errors_fp` writes for the error queue. -/
  ERR_print_errors_fp : String

/-- Expansion of `__FILE__`. -/
def FILE : String := "cert_validation_B.c"

def CA_FILE : String := "../certs/Pulp_CA.cert"
def CA_DIR : String := "../certs/"
def CRL_FILE : String := "../certs/Pulp_CRL.pem"
def CLIENT_CERT : String := "../certs/Pulp_client.cert"

/-- `void handle_error(const char *file, int lineno, const char *msg)` -/
def handle_error (env : Env) (file : String) (lineno : Int) (msg : String) (s : State) : Run :=
  let s := s.eprintf (file ++ ":" ++ toString lineno ++ " " ++ msg ++ "\n")
  let s := (s.call .ERR_print_errors_fp).eprintf env.ERR_print_errors_fp
  s.exit (-1)

/-- `#define int_error(msg) handle_error(__FILE__, __LINE__, msg)`; the line is
that of the use. -/
def int_error (env : Env) (line : Int) (msg : String) (s : State) : Run :=
  handle_error env FILE line msg s

/-- `int verify_callback(int ok, X509_STORE_CTX *stor)` -/
def verify_callback (env : Env) (ok : Int) (stor : X509_STORE_CTX) (s : State) : Int × State :=
  let s := if ok = 0 then
      s.eprintf ("Error: " ++ env.X509_verify_cert_error_string stor.error ++ "\n")
    else s
  (ok, s)

/-- `int main(int argc, char *argv[])` -/
def main (K : Hdr) (env : Env) (argc : Int) (argv : List String) : Run :=
  let s := State.start
  let s := s.call .OpenSSL_add_all_algorithms
  let s := s.call .ERR_load_crypto_strings
  -- read the client certificate
  let fp := env.fopen_client
  let s := s.call (.fopen CLIENT_CERT "r" fp)
  if fp = 0 then int_error env 49 "Error reading client certificate file" s else
  let cert := env.PEM_read_X509_client
  let s := s.call (.PEM_read_X509 fp cert)
  if cert = 0 then int_error env 52 "Error reading client certificate in file" s else
  let s := s.call (.fclose fp)
  -- read CA certificate
  let fp := env.fopen_ca
  let s := s.call (.fopen CA_FILE "r" fp)
  if fp = 0 then int_error env 58 "Error reading CA certificate file" s else
  let cacert := env.PEM_read_X509_ca
  let s := s.call (.PEM_read_X509 fp cacert)
  if cacert = 0 then int_error env 61 "Error reading CA certificate in file" s else
  let s := s.call (.fclose fp)
  -- Read CRL
  let fp := env.fopen_crl
  let s := s.call (.fopen CRL_FILE "r" fp)
  if fp = 0 then int_error env 67 "Error opening CRL file" s else
  let crl := env.PEM_read_X509_CRL
  let s := s.call (.PEM_read_X509_CRL fp crl)
  if crl = 0 then int_error env 70 "Error reading CRL" s else
  let s := s.call (.fclose fp)
  -- create the cert store and set the verify callback
  let store := env.X509_STORE_new
  let s := s.call (.X509_STORE_new store)
  if store = 0 then int_error env 76 "Error creating X509_STORE_CTX object" s else
  -- Add CA cert to Store
  let r := env.X509_STORE_add_cert
  let s := s.call (.X509_STORE_add_cert store cacert r)
  if r ≠ 1 then int_error env 80 "Error adding CA certificate to certificate store" s else
  -- Add CRL to Store
  let r := env.X509_STORE_add_crl
  let s := s.call (.X509_STORE_add_crl store crl r)
  if r ≠ 1 then int_error env 84 "Error adding CRL to certificate store" s else
  let s := s.call (.X509_STORE_set_verify_cb_func store)
  -- set the flags of the store so that the CRLs are consulted
  let s := s.call (.X509_STORE_set_flags store
    (K.X509_V_FLAG_CRL_CHECK ||| K.X509_V_FLAG_CRL_CHECK_ALL))
  -- Create an empty X509_Stack for untrusted
  let untrusted := env.sk_X509_new_null
  let s := s.call (.sk_X509_new_null untrusted)
  if untrusted = 0 then int_error env 92 "Error creating X509_Stack" s else
  -- Create a CRL_Stack
  let crls := env.sk_X509_CRL_new_null
  let s := s.call (.sk_X509_CRL_new_null crls)
  if crls = 0 then int_error env 96 "Error creating X509_CRL" s else
  -- Add CRL to CRL_Stack
  let r := env.sk_X509_CRL_push
  let s := s.call (.sk_X509_CRL_push crls crl r)
  if r ≠ 1 then int_error env 100 "Error adding a CRL to the Stack of CRLs" s else
  -- create a verification context and set it up
  let verify_ctx := env.X509_STORE_CTX_new
  let s := s.call (.X509_STORE_CTX_new verify_ctx)
  if verify_ctx = 0 then int_error env 105 "Error creating X509_STORE_CTX object" s else
  -- We are explicitly adding an empty X509_Stack for untrusted
  let r := env.X509_STORE_CTX_init
  let s := s.call (.X509_STORE_CTX_init verify_ctx store cert untrusted r)
  if r ≠ 1 then int_error env 109 "Error initializing verification context" s else
  let s := s.call (.X509_STORE_CTX_set0_crls verify_ctx crls)
  -- verify the certificate
  let v := X509_verify_cert (verify_callback env) verify_ctx env.X509_verify_cert s
  let s := v.2
  if v.1 ≠ 1 then int_error env 114 "Error verifying the certificate" s else
  let s := s.printf "Certificate verified correctly!\n"
  s.ret 0

end CertValidationB

/-! ## chain_example/c_api_examples/cert_validation.c -/

namespace ChainExample

/-- Results of the external calls of
`chain_example/c_api_examples/cert_validation.c`, one field per call site, in
source order. -/
structure Env where
  fopen_test : Ptr
  PEM_read_X509 : Ptr
  X509_STORE_new : Ptr
  X509_STORE_load_locations : Int
  X509_STORE_set_default_paths : Int
  X509_STORE_CTX_new : Ptr
  X509_STORE_CTX_init : Int
  X509_verify_cert : VerifyRun
  /-- The library function from error code to text. -/
  X509_verify_cert_error_string : Int → String
  /-- The text `ERR_print_errors_fp` writes for the error queue. -/
  ERR_print_errors_fp : String

/-- Expansion of `__FILE__`. -/
def FILE : String := "cert_validation.c"

def CA_CERT_CHAIN : String := "../certs/ca_chain"
def CA_DIR : String := "../certs/"
def TEST_CERT : String := "../certs/test_cert.pem"

/-- `void handle_error(const char *file, int lineno, const char *msg)` -/
def handle_error (env : Env) (file : String) (lineno : Int) (msg : String) (s : State) : Run :=
  let s := s.eprintf (file ++ ":" ++ toString lineno ++ " " ++ msg ++ "\n")
  let s := (s.call .ERR_print_errors_fp).eprintf env.ERR_print_errors_fp
  s.exit (-1)

/-- `#define int_error(msg) handle_error(__FILE__, __LINE__, msg)`; the line is
that of the use. -/
def int_error (env : Env) (line : Int) (msg : String) (s : State) : Run :=
  handle_error env FILE line msg s

/-- `int verify_callback(int ok, X509_STORE_CTX *stor)` -/
def verify_callback (env : Env) (ok : Int) (stor : X509_STORE_CTX) (s : State) : Int × State :=
  let s := if ok = 0 then
      s.eprintf ("Error: " ++ env.X509_verify_cert_error_string stor.error ++ "\n")
    else s
  (ok, s)

/-- `int main(int argc, char *argv[])` -/
def main (env : Env) (argc : Int) (argv : List String) : Run :=
  let s := State.start
  let s := s.call .OpenSSL_add_all_algorithms
  let s := s.call .ERR_load_crypto_strings
  -- first read the client certificate
  let fp := env.fopen_test
  let s := s.call (.fopen TEST_CERT "r" fp)
  if fp = 0 then int_error env 46 "Error reading client certificate file" s else
  let cert := env.PEM_read_X509
  let s := s.call (.PEM_read_X509 fp cert)
  if cert = 0 then int_error env 49 "Error reading client certificate in file" s else
  let s := s.call (.fclose fp)
  -- create the cert store and set the verify callback
  let store := env.X509_STORE_new
  let s := s.call (.X509_STORE_new store)
  if store = 0 then int_error env 55 "Error creating X509_STORE_CTX object" s else
  let s := s.call (.X509_STORE_set_verify_cb_func store)
  -- load the CA certificates and CRLs
  let r := env.X509_STORE_load_locations
  let s := s.call (.X509_STORE_load_locations store CA_CERT_CHAIN CA_DIR r)
  if r ≠ 1 then int_error env 61 "Error loading the CA file or directory" s else
  let r := env.X509_STORE_set_default_paths
  let s := s.call (.X509_STORE_set_default_paths store r)
  if r ≠ 1 then int_error env 64 "Error loading the system-wide CA certificates" s else
  -- create a verification context and set it up
  let verify_ctx := env.X509_STORE_CTX_new
  let s := s.call (.X509_STORE_CTX_new verify_ctx)
  if verify_ctx = 0 then int_error env 68 "Error creating X509_STORE_CTX object" s else
  let r := env.X509_STORE_CTX_init
  let s := s.call (.X509_STORE_CTX_init verify_ctx store cert 0 r)
  if r ≠ 1 then int_error env 71 "Error initializing verification context" s else
  -- verify the certificate
  let v := X509_verify_cert (verify_callback env) verify_ctx env.X509_verify_cert s
  let s := v.2
  if v.1 ≠ 1 then int_error env 75 "Error verifying the certificate" s else
  let s := s.printf "Certificate verified correctly!\n"
  s.ret 0

end ChainExample

/-! ## Further observations and the conditions the claims speak of -/

/-- An observation made at the moment of the first call of `X509_verify_cert`,
when there is one. -/
def atVerify {α : Type} (obs : List Call → α) (tr : List Call) : Option α :=
  (beforeVerify tr).map obs

/-- An observation made at the moment of the first call of
`X509_STORE_CTX_init`, when there is one. -/
def atInit {α : Type} (obs : List Call → α) (tr : List Call) : Option α :=
  (beforeInit tr).map obs

/-- The run reaches `X509_verify_cert`. -/
def reachesVerify (run : Run) : Prop := 0 < verifyCalls run.trace

/-- The run prints the success line, returns 0 from `main` without calling
`exit`, exactly when `pass` holds; otherwise it calls `exit(-1)` and prints
nothing on stdout. -/
def SuccessIff (run : Run) (pass : Prop) : Prop :=
  ((run.stdout = successText ∧ run.status = 0 ∧ exitCalls run.trace = []) ↔ pass) ∧
  (¬ pass → run.status = -1 ∧ exitCalls run.trace = [-1] ∧ run.stdout = "")

/-- The run ends in `exit(-1)` and never calls `X509_verify_cert`. -/
def FailsBeforeVerify (run : Run) : Prop :=
  run.status = -1 ∧ exitCalls run.trace = [-1] ∧ verifyCalls run.trace = 0

/-- What the claims say of one call of the verification callback: from state
`s`, with error texts `errstr`, the callback called with `ok` and context `c`
gave `out`.  It returns `ok`, makes no external call, leaves stdout alone, and
writes to stderr exactly when `ok` is 0, then the one line `Error: ` followed
by the text of the error code of the context. -/
def CallbackPassesThrough (errstr : Int → String) (ok : Int) (c : X509_STORE_CTX) (s : State)
    (out : Int × State) : Prop :=
  out.1 = ok ∧ out.2.trace = s.trace ∧ out.2.stdout = s.stdout ∧
  (ok = 0 → out.2.stderr = s.stderr ++ ("Error: " ++ errstr c.error ++ "\n")) ∧
  (ok ≠ 0 → out.2.stderr = s.stderr) ∧
  (out.2.stderr ≠ s.stderr ↔ ok = 0)

/-- The text written to stderr by the callbacks in the course of a
verification, for a callback that hands back `ok` and reports as the three
files do. -/
def verifyText (errstr : Int → String) : VerifyRun → String
  | .ret _ => ""
  | .cb ok c k =>
      (if ok = 0 then "Error: " ++ errstr c.error ++ "\n" else "") ++ verifyText errstr (k ok)

/-- The line `handle_error` writes first. -/
def errorLine (file : String) (lineno : Int) (msg : String) : String :=
  file ++ ":" ++ toString lineno ++ " " ++ msg ++ "\n"

/-- The run stopped at one of the places of `table`, writing its line and
then the text `errq` of the error queue. -/
def StopsAt (table : List (Nat × Int × String)) (file errq : String) (run : Run) : Prop :=
  ∃ t ∈ table, run.trace.length = t.1 ∧ run.stderr = errorLine file t.2.1 t.2.2 ++ errq

/-- Two runs with the same exit status and the same text on stdout and stderr. -/
def SameOutcome (r r' : Run) : Prop :=
  r.status = r'.status ∧ r.stdout = r'.stdout ∧ r.stderr = r'.stderr

/-- The certificates on the stack `sk`: those pushed with a non-zero result. -/
@[simp] def x509StackContents (sk : Ptr) : List Call → List Ptr
  | [] => []
  | .sk_X509_push k c r :: t =>
      if k = sk ∧ r ≠ 0 then c :: x509StackContents sk t else x509StackContents sk t
  | _ :: t => x509StackContents sk t

/-- The CRLs on the stack `sk`: those pushed with a non-zero result. -/
@[simp] def crlStackContents (sk : Ptr) : List Call → List Ptr
  | [] => []
  | .sk_X509_CRL_push k c r :: t =>
      if k = sk ∧ r ≠ 0 then c :: crlStackContents sk t else crlStackContents sk t
  | _ :: t => crlStackContents sk t

/-- The certificates added to `store` by `X509_STORE_add_cert` returning 1. -/
@[simp] def storeCerts (store : Ptr) : List Call → List Ptr
  | [] => []
  | .X509_STORE_add_cert st c r :: t =>
      if st = store ∧ r = 1 then c :: storeCerts store t else storeCerts store t
  | _ :: t => storeCerts store t

/-- The CRLs added to `store` by `X509_STORE_add_crl` returning 1. -/
@[simp] def storeCRLs (store : Ptr) : List Call → List Ptr
  | [] => []
  | .X509_STORE_add_crl st c r :: t =>
      if st = store ∧ r = 1 then c :: storeCRLs store t else storeCRLs store t
  | _ :: t => storeCRLs store t

/-- The stacks of untrusted certificates handed to `X509_STORE_CTX_init` for `ctx`. -/
@[simp] def untrustedGiven (ctx : Ptr) : List Call → List Ptr
  | [] => []
  | .X509_STORE_CTX_init c _ _ u _ :: t =>
      if c = ctx then u :: untrustedGiven ctx t else untrustedGiven ctx t
  | _ :: t => untrustedGiven ctx t

/-- The stacks of CRLs handed to `X509_STORE_CTX_set0_crls` for `ctx`. -/
@[simp] def crlsGiven (ctx : Ptr) : List Call → List Ptr
  | [] => []
  | .X509_STORE_CTX_set0_crls c k :: t =>
      if c = ctx then k :: crlsGiven ctx t else crlsGiven ctx t
  | _ :: t => crlsGiven ctx t

/-- Some call in the trace lets the store read certificates or CRLs from files
or directories. -/
@[simp] def loadsFromDisk : List Call → Bool
  | [] => false
  | .X509_STORE_load_locations _ _ _ _ :: _ => true
  | .X509_STORE_set_default_paths _ _ :: _ => true
  | .X509_STORE_add_lookup _ _ _ :: _ => true
  | .X509_load_crl_file _ _ _ _ :: _ => true
  | _ :: t => loadsFromDisk t

/-- A callback that makes no external call, writes nothing to stdout and
returns `ok` as it got it. -/
def QuietCallback (cb : Int → X509_STORE_CTX → State → Int × State) : Prop :=
  ∀ ok c s, (cb ok c s).2.trace = s.trace ∧ (cb ok c s).2.stdout = s.stdout ∧ (cb ok c s).1 = ok

/-- The facts about a run that stopped before `X509_verify_cert`. -/
structure SetupFailed (r : Run) : Prop where
  status : r.status = -1
  stdout : r.stdout = ""
  exits : exitCalls r.trace = [-1]
  noVerify : verifyCalls r.trace = 0
  frozen : storeFrozenAfterInit r.trace = true

/-- The facts about a run that reached `X509_verify_cert`: `pre` are the calls
before it, `ctx` its argument and `r` its result. -/
structure Reached (run : Run) (pre : List Call) (ctx : Ptr) (r : Int) : Prop where
  trace : run.trace = pre ++ Call.X509_verify_cert ctx r ::
      (if r = 1 then [] else [Call.ERR_print_errors_fp, Call.exit (-1)])
  status : run.status = (if r = 1 then 0 else -1)
  stdout : run.stdout = (if r = 1 then successText else "")

namespace CertValidation

/-- Every checked call before `X509_verify_cert` succeeded. -/
def setupOk (env : Env) : Prop :=
  env.fopen_client ≠ 0 ∧ env.PEM_read_X509 ≠ 0 ∧ env.X509_STORE_new ≠ 0 ∧
  env.X509_STORE_load_locations = 1 ∧ env.X509_STORE_set_default_paths = 1 ∧
  env.X509_STORE_add_lookup ≠ 0 ∧ env.X509_load_crl_file = 1 ∧
  env.X509_STORE_CTX_new ≠ 0 ∧ env.X509_STORE_CTX_init = 1

/-- Every checked step succeeded and `X509_verify_cert` returned exactly 1. -/
def allChecksPass (env : Env) : Prop :=
  setupOk env ∧ env.X509_verify_cert.result = 1

/-- The calls made before `X509_verify_cert` on a run where all of them succeed. -/
def setupCalls (K : Hdr) (env : Env) : List Call :=
  [ .OpenSSL_add_all_algorithms, .ERR_load_crypto_strings,
    .fopen CLIENT_CERT "r" env.fopen_client,
    .PEM_read_X509 env.fopen_client env.PEM_read_X509,
    .fclose env.fopen_client,
    .X509_STORE_new env.X509_STORE_new,
    .X509_STORE_set_verify_cb_func env.X509_STORE_new,
    .X509_STORE_load_locations env.X509_STORE_new CA_FILE CA_DIR 1,
    .X509_STORE_set_default_paths env.X509_STORE_new 1,
    .X509_LOOKUP_file env.X509_LOOKUP_file,
    .X509_STORE_add_lookup env.X509_STORE_new env.X509_LOOKUP_file env.X509_STORE_add_lookup,
    .X509_load_crl_file env.X509_STORE_add_lookup CRL_FILE K.X509_FILETYPE_PEM 1,
    .X509_STORE_set_flags env.X509_STORE_new
      (K.X509_V_FLAG_CRL_CHECK ||| K.X509_V_FLAG_CRL_CHECK_ALL),
    .X509_STORE_CTX_new env.X509_STORE_CTX_new,
    .X509_STORE_CTX_init env.X509_STORE_CTX_new env.X509_STORE_new env.PEM_read_X509 0 1 ]

/-- The library behaves alike in two environments: `X509_verify_cert` goes
through the same callback invocations to the same result, the error codes have
the same texts and `ERR_print_errors_fp` writes the same text. -/
def SameLibrary (e f : Env) : Prop :=
  e.X509_verify_cert = f.X509_verify_cert ∧
  e.X509_verify_cert_error_string = f.X509_verify_cert_error_string ∧
  e.ERR_print_errors_fp = f.ERR_print_errors_fp

/-- Where `main` can stop before `X509_verify_cert`: the number of calls in the
trace of such a run, with the line and the message given to `int_error`. -/
def stops : List (Nat × Int × String) :=
  [ (5, 39, "Error reading client certificate file"),
    (6, 42, "Error reading client certificate in file"),
    (8, 48, "Error creating X509_STORE_CTX object"),
    (10, 54, "Error loading the CA file or directory"),
    (11, 57, "Error loading the system-wide CA certificates"),
    (13, 60, "Error creating X509_LOOKUP object"),
    (14, 63, "Error reading the CRL file"),
    (16, 71, "Error creating X509_STORE_CTX object"),
    (17, 74, "Error initializing verification context") ]

end CertValidation

namespace CertValidationB

/-- Every checked call before `X509_verify_cert` succeeded. -/
def setupOk (env : Env) : Prop :=
  env.fopen_client ≠ 0 ∧ env.PEM_read_X509_client ≠ 0 ∧
  env.fopen_ca ≠ 0 ∧ env.PEM_read_X509_ca ≠ 0 ∧
  env.fopen_crl ≠ 0 ∧ env.PEM_read_X509_CRL ≠ 0 ∧
  env.X509_STORE_new ≠ 0 ∧ env.X509_STORE_add_cert = 1 ∧ env.X509_STORE_add_crl = 1 ∧
  env.sk_X509_new_null ≠ 0 ∧ env.sk_X509_CRL_new_null ≠ 0 ∧ env.sk_X509_CRL_push = 1 ∧
  env.X509_STORE_CTX_new ≠ 0 ∧ env.X509_STORE_CTX_init = 1

/-- Every checked step succeeded and `X509_verify_cert` returned exactly 1. -/
def allChecksPass (env : Env) : Prop :=
  setupOk env ∧ env.X509_verify_cert.result = 1

/-- The calls made before `X509_verify_cert` on a run where all of them succeed. -/
def setupCalls (K : Hdr) (env : Env) : List Call :=
  [ .OpenSSL_add_all_algorithms, .ERR_load_crypto_strings,
    .fopen CLIENT_CERT "r" env.fopen_client,
    .PEM_read_X509 env.fopen_client env.PEM_read_X509_client,
    .fclose env.fopen_client,
    .fopen CA_FILE "r" env.fopen_ca,
    .PEM_read_X509 env.fopen_ca env.PEM_read_X509_ca,
    .fclose env.fopen_ca,
    .fopen CRL_FILE "r" env.fopen_crl,
    .PEM_read_X509_CRL env.fopen_crl env.PEM_read_X509_CRL,
    .fclose env.fopen_crl,
    .X509_STORE_new env.X509_STORE_new,
    .X509_STORE_add_cert env.X509_STORE_new env.PEM_read_X509_ca 1,
    .X509_STORE_add_crl env.X509_STORE_new env.PEM_read_X509_CRL 1,
    .X509_STORE_set_verify_cb_func env.X509_STORE_new,
    .X509_STORE_set_flags env.X509_STORE_new
      (K.X509_V_FLAG_CRL_CHECK ||| K.X509_V_FLAG_CRL_CHECK_ALL),
    .sk_X509_new_null env.sk_X509_new_null,
    .sk_X509_CRL_new_null env.sk_X509_CRL_new_null,
    .sk_X509_CRL_push env.sk_X509_CRL_new_null env.PEM_read_X509_CRL 1,
    .X509_STORE_CTX_new env.X509_STORE_CTX_new,
    .X509_STORE_CTX_init env.X509_STORE_CTX_new env.X509_STORE_new env.PEM_read_X509_client
      env.sk_X509_new_null 1,
    .X509_STORE_CTX_set0_crls env.X509_STORE_CTX_new env.sk_X509_CRL_new_null ]

/-- The CRL is absent or could not be put in place: the CRL file cannot be
opened, does not decode, or the CRL does not go into the store or onto the
stack of CRLs. -/
def crlMissing (env : Env) : Prop :=
  env.fopen_crl = 0 ∨ env.PEM_read_X509_CRL = 0 ∨ env.X509_STORE_add_crl ≠ 1 ∨
  env.sk_X509_CRL_push ≠ 1

/-- The library behaves alike in two environments: `X509_verify_cert` goes
through the same callback invocations to the same result, the error codes have
the same texts and `ERR_print_errors_fp` writes the same text. -/
def SameLibrary (e f : Env) : Prop :=
  e.X509_verify_cert = f.X509_verify_cert ∧
  e.X509_verify_cert_error_string = f.X509_verify_cert_error_string ∧
  e.ERR_print_errors_fp = f.ERR_print_errors_fp

/-- Where `main` can stop before `X509_verify_cert`: the number of calls in the
trace of such a run, with the line and the message given to `int_error`. -/
def stops : List (Nat × Int × String) :=
  [ (5, 49, "Error reading client certificate file"),
    (6, 52, "Error reading client certificate in file"),
    (8, 58, "Error reading CA certificate file"),
    (9, 61, "Error reading CA certificate in file"),
    (11, 67, "Error opening CRL file"),
    (12, 70, "Error reading CRL"),
    (14, 76, "Error creating X509_STORE_CTX object"),
    (15, 80, "Error adding CA certificate to certificate store"),
    (16, 84, "Error adding CRL to certificate store"),
    (19, 92, "Error creating X509_Stack"),
    (20, 96, "Error creating X509_CRL"),
    (21, 100, "Error adding a CRL to the Stack of CRLs"),
    (22, 105, "Error creating X509_STORE_CTX object"),
    (23, 109, "Error initializing verification context") ]

end CertValidationB

namespace ChainExample

/-- Every checked call before `X509_verify_cert` succeeded. -/
def setupOk (env : Env) : Prop :=
  env.fopen_test ≠ 0 ∧ env.PEM_read_X509 ≠ 0 ∧ env.X509_STORE_new ≠ 0 ∧
  env.X509_STORE_load_locations = 1 ∧ env.X509_STORE_set_default_paths = 1 ∧
  env.X509_STORE_CTX_new ≠ 0 ∧ env.X509_STORE_CTX_init = 1

/-- Every checked step succeeded and `X509_verify_cert` returned exactly 1. -/
def allChecksPass (env : Env) : Prop :=
  setupOk env ∧ env.X509_verify_cert.result = 1

/-- The calls made before `X509_verify_cert` on a run where all of them succeed. -/
def setupCalls (env : Env) : List Call :=
  [ .OpenSSL_add_all_algorithms, .ERR_load_crypto_strings,
    .fopen TEST_CERT "r" env.fopen_test,
    .PEM_read_X509 env.fopen_test env.PEM_read_X509,
    .fclose env.fopen_test,
    .X509_STORE_new env.X509_STORE_new,
    .X509_STORE_set_verify_cb_func env.X509_STORE_new,
    .X509_STORE_load_locations env.X509_STORE_new CA_CERT_CHAIN CA_DIR 1,
    .X509_STORE_set_default_paths env.X509_STORE_new 1,
    .X509_STORE_CTX_new env.X509_STORE_CTX_new,
    .X509_STORE_CTX_init env.X509_STORE_CTX_new env.X509_STORE_new env.PEM_read_X509 0 1 ]

/-- The library behaves alike in two environments: `X509_verify_cert` goes
through the same callback invocations to the same result, the error codes have
the same texts and `ERR_print_errors_fp` writes the same text. -/
def SameLibrary (e f : Env) : Prop :=
  e.X509_verify_cert = f.X509_verify_cert ∧
  e.X509_verify_cert_error_string = f.X509_verify_cert_error_string ∧
  e.ERR_print_errors_fp = f.ERR_print_errors_fp

/-- Where `main` can stop before `X509_verify_cert`: the number of calls in the
trace of such a run, with the line and the message given to `int_error`. -/
def stops : List (Nat × Int × String) :=
  [ (5, 46, "Error reading client certificate file"),
    (6, 49, "Error reading client certificate in file"),
    (8, 55, "Error creating X509_STORE_CTX object"),
    (10, 61, "Error loading the CA file or directory"),
    (11, 64, "Error loading the system-wide CA certificates"),
    (12, 68, "Error creating X509_STORE_CTX object"),
    (13, 71, "Error initializing verification context") ]

end ChainExample

/-! ## Sample inputs -/

/-- The values of the header constants in OpenSSL. -/
def K0 : Hdr := ⟨0x4, 0x8, 1⟩

/-- Error texts for the sample runs. -/
def errText (code : Int) : String :=
  if code = 23 then "certificate revoked"
  else if code = 3 then "unable to get certificate CRL"
  else "error"

/-- A context reporting a revoked leaf certificate (depth 0). -/
def ctxLeafRevoked : X509_STORE_CTX := ⟨23, 0, 11⟩

/-- A context reporting a revoked issuing certificate (depth 1). -/
def ctxIssuerRevoked : X509_STORE_CTX := ⟨23, 1, 12⟩

/-- A verification in which every check passes. -/
def verifyPasses : VerifyRun := .cb 1 ⟨0, 0, 11⟩ (fun r => .ret (if r = 0 then 0 else 1))

/-- A verification that finds the leaf revoked and stops when the callback
does not overrule it. -/
def verifyRevoked : VerifyRun := .cb 0 ctxLeafRevoked (fun r => .ret (if r = 0 then 0 else 1))

/-- All calls of `c_api_examples/cert_validation.c` succeed. -/
def cvEnvOk : CertValidation.Env :=
  ⟨101, 11, 201, 1, 1, 301, 302, 1, 401, 1, verifyPasses, errText, ""⟩

/-- The leaf certificate is revoked. -/
def cvEnvRevoked : CertValidation.Env :=
  ⟨101, 11, 201, 1, 1, 301, 302, 1, 401, 1, verifyRevoked, errText, ""⟩

/-- The CRL file cannot be loaded. -/
def cvEnvNoCRL : CertValidation.Env :=
  ⟨101, 11, 201, 1, 1, 301, 302, 0, 401, 1, verifyPasses, errText, "no start line\n"⟩

/-- The CRL file cannot be loaded, in a world where the later calls would have
failed as well. -/
def cvEnvNoCRLOther : CertValidation.Env :=
  ⟨101, 11, 201, 1, 1, 301, 302, 0, 0, 0, verifyPasses, errText, "no start line\n"⟩

/-- All calls of `c_api_examples/cert_validation_B.c` succeed. -/
def cvBEnvOk : CertValidationB.Env :=
  ⟨101, 11, 102, 12, 103, 21, 201, 1, 1, 501, 502, 1, 401, 1, verifyPasses, errText, ""⟩

/-- The CRL file cannot be opened. -/
def cvBEnvNoCRL : CertValidationB.Env :=
  ⟨101, 11, 102, 12, 0, 21, 201, 1, 1, 501, 502, 1, 401, 1, verifyPasses, errText, ""⟩

/-- All calls of `chain_example/c_api_examples/cert_validation.c` succeed. -/
def chainEnvOk : ChainExample.Env :=
  ⟨101, 11, 201, 1, 1, 401, 1, verifyPasses, errText, ""⟩

/-! ## Lemmas on the state and on `X509_verify_cert` -/

@[simp] theorem State.call_trace (s : State) (c : Call) : (s.call c).trace = s.trace ++ [c] := rfl
@[simp] theorem State.call_stdout (s : State) (c : Call) : (s.call c).stdout = s.stdout := rfl
@[simp] theorem State.call_stderr (s : State) (c : Call) : (s.call c).stderr = s.stderr := rfl
@[simp] theorem State.printf_trace (s : State) (t : String) : (s.printf t).trace = s.trace := rfl
@[simp] theorem State.printf_stdout (s : State) (t : String) :
    (s.printf t).stdout = s.stdout ++ t := rfl
@[simp] theorem State.printf_stderr (s : State) (t : String) : (s.printf t).stderr = s.stderr := rfl
@[simp] theorem State.eprintf_trace (s : State) (t : String) : (s.eprintf t).trace = s.trace := rfl
@[simp] theorem State.eprintf_stdout (s : State) (t : String) : (s.eprintf t).stdout = s.stdout := rfl
@[simp] theorem State.eprintf_stderr (s : State) (t : String) :
    (s.eprintf t).stderr = s.stderr ++ t := rfl
@[simp] theorem State.ret_trace (s : State) (n : Int) : (s.ret n).trace = s.trace := rfl
@[simp] theorem State.ret_stdout (s : State) (n : Int) : (s.ret n).stdout = s.stdout := rfl
@[simp] theorem State.ret_stderr (s : State) (n : Int) : (s.ret n).stderr = s.stderr := rfl
@[simp] theorem State.ret_status (s : State) (n : Int) : (s.ret n).status = n := rfl
@[simp] theorem State.exit_trace (s : State) (n : Int) :
    (s.exit n).trace = s.trace ++ [Call.exit n] := rfl
@[simp] theorem State.exit_stdout (s : State) (n : Int) : (s.exit n).stdout = s.stdout := rfl
@[simp] theorem State.exit_stderr (s : State) (n : Int) : (s.exit n).stderr = s.stderr := rfl
@[simp] theorem State.exit_status (s : State) (n : Int) : (s.exit n).status = n := rfl
@[simp] theorem State.start_trace : State.start.trace = [] := rfl
@[simp] theorem State.start_stdout : State.start.stdout = "" := rfl
@[simp] theorem State.start_stderr : State.start.stderr = "" := rfl

theorem X509_verify_cert_result {cb : Int → X509_STORE_CTX → State → Int × State}
    (hcb : QuietCallback cb) (ctx : Ptr) (v : VerifyRun) (s : State) :
    (X509_verify_cert cb ctx v s).1 = v.result := by
  induction v generalizing s with
  | ret r => rfl
  | cb ok c k ih =>
    rw [X509_verify_cert, ih, (hcb ok c s).2.2, VerifyRun.result]

theorem X509_verify_cert_trace {cb : Int → X509_STORE_CTX → State → Int × State}
    (hcb : QuietCallback cb) (ctx : Ptr) (v : VerifyRun) (s : State) :
    (X509_verify_cert cb ctx v s).2.trace
      = s.trace ++ [Call.X509_verify_cert ctx (X509_verify_cert cb ctx v s).1] := by
  induction v generalizing s with
  | ret r => rfl
  | cb ok c k ih =>
    rw [X509_verify_cert, ih, (hcb ok c s).1]

theorem X509_verify_cert_stdout {cb : Int → X509_STORE_CTX → State → Int × State}
    (hcb : QuietCallback cb) (ctx : Ptr) (v : VerifyRun) (s : State) :
    (X509_verify_cert cb ctx v s).2.stdout = s.stdout := by
  induction v generalizing s with
  | ret r => rfl
  | cb ok c k ih =>
    rw [X509_verify_cert, ih, (hcb ok c s).2.1]

theorem or_and_left_flag (f a b : Nat) : (f ||| (a ||| b)) &&& a = a := by
  apply Nat.eq_of_testBit_eq
  intro i
  simp only [Nat.testBit_and, Nat.testBit_or]
  cases f.testBit i <;> cases a.testBit i <;> cases b.testBit i <;> rfl

theorem or_and_right_flag (f a b : Nat) : (f ||| (a ||| b)) &&& b = b := by
  apply Nat.eq_of_testBit_eq
  intro i
  simp only [Nat.testBit_and, Nat.testBit_or]
  cases f.testBit i <;> cases a.testBit i <;> cases b.testBit i <;> rfl

/-! ## Lemmas on `CertValidation.main` -/

theorem cv_callback_quiet (env : CertValidation.Env) : QuietCallback (CertValidation.verify_callback env) := by
  intro ok c s
  unfold CertValidation.verify_callback
  split_ifs <;> exact ⟨rfl, rfl, rfl⟩

@[simp] theorem cv_int_error_trace (env : CertValidation.Env) (l : Int) (m : String) (s : State) :
    (CertValidation.int_error env l m s).trace
      = s.trace ++ [Call.ERR_print_errors_fp, Call.exit (-1)] := by
  simp [CertValidation.int_error, CertValidation.handle_error]

@[simp] theorem cv_int_error_stdout (env : CertValidation.Env) (l : Int) (m : String) (s : State) :
    (CertValidation.int_error env l m s).stdout = s.stdout := rfl

@[simp] theorem cv_int_error_status (env : CertValidation.Env) (l : Int) (m : String) (s : State) :
    (CertValidation.int_error env l m s).status = -1 := rfl

@[simp] theorem cv_verify_result (env : CertValidation.Env) (ctx : Ptr) (v : VerifyRun) (s : State) :
    (X509_verify_cert (CertValidation.verify_callback env) ctx v s).1 = v.result :=
  X509_verify_cert_result (cv_callback_quiet env) ctx v s

@[simp] theorem cv_verify_trace (env : CertValidation.Env) (ctx : Ptr) (v : VerifyRun) (s : State) :
    (X509_verify_cert (CertValidation.verify_callback env) ctx v s).2.trace
      = s.trace ++ [Call.X509_verify_cert ctx v.result] := by
  rw [X509_verify_cert_trace (cv_callback_quiet env) ctx v s, cv_verify_result]

@[simp] theorem cv_verify_stdout (env : CertValidation.Env) (ctx : Ptr) (v : VerifyRun) (s : State) :
    (X509_verify_cert (CertValidation.verify_callback env) ctx v s).2.stdout = s.stdout :=
  X509_verify_cert_stdout (cv_callback_quiet env) ctx v s

theorem cv_setup_failed (K : Hdr) (env : CertValidation.Env) (argc : Int) (argv : List String)
    (h : ¬ CertValidation.setupOk env) : SetupFailed (CertValidation.main K env argc argv) := by
  unfold CertValidation.main
  by_cases h1 : env.fopen_client = 0
  · constructor <;> simp [*]
  by_cases h2 : env.PEM_read_X509 = 0
  · constructor <;> simp [*]
  by_cases h3 : env.X509_STORE_new = 0
  · constructor <;> simp [*]
  by_cases h4 : env.X509_STORE_load_locations = 1
  swap
  · constructor <;> simp [*]
  by_cases h5 : env.X509_STORE_set_default_paths = 1
  swap
  · constructor <;> simp [*]
  by_cases h6 : env.X509_STORE_add_lookup = 0
  · constructor <;> simp [*]
  by_cases h7 : env.X509_load_crl_file = 1
  swap
  · constructor <;> simp [*]
  by_cases h8 : env.X509_STORE_CTX_new = 0
  · constructor <;> simp [*]
  by_cases h9 : env.X509_STORE_CTX_init = 1
  swap
  · constructor <;> simp [*]
  exact absurd ⟨h1, h2, h3, h4, h5, h6, h7, h8, h9⟩ h

theorem cv_setup_ok (K : Hdr) (env : CertValidation.Env) (argc : Int) (argv : List String)
    (h : CertValidation.setupOk env) :
    Reached (CertValidation.main K env argc argv) (CertValidation.setupCalls K env)
      env.X509_STORE_CTX_new env.X509_verify_cert.result := by
  obtain ⟨h1, h2, h3, h4, h5, h6, h7, h8, h9⟩ := h
  unfold CertValidation.main
  by_cases hv : env.X509_verify_cert.result = 1
  · constructor <;> simp [*, CertValidation.setupCalls, successText]
  · constructor <;> simp [*, CertValidation.setupCalls, successText]

/-! ## Lemmas on `CertValidationB.main` -/

theorem cvB_callback_quiet (env : CertValidationB.Env) : QuietCallback (CertValidationB.verify_callback env) := by
  intro ok c s
  unfold CertValidationB.verify_callback
  split_ifs <;> exact ⟨rfl, rfl, rfl⟩

@[simp] theorem cvB_int_error_trace (env : CertValidationB.Env) (l : Int) (m : String) (s : State) :
    (CertValidationB.int_error env l m s).trace
      = s.trace ++ [Call.ERR_print_errors_fp, Call.exit (-1)] := by
  simp [CertValidationB.int_error, CertValidationB.handle_error]

@[simp] theorem cvB_int_error_stdout (env : CertValidationB.Env) (l : Int) (m : String) (s : State) :
    (CertValidationB.int_error env l m s).stdout = s.stdout := rfl

@[simp] theorem cvB_int_error_status (env : CertValidationB.Env) (l : Int) (m : String) (s : State) :
    (CertValidationB.int_error env l m s).status = -1 := rfl

@[simp] theorem cvB_verify_result (env : CertValidationB.Env) (ctx : Ptr) (v : VerifyRun) (s : State) :
    (X509_verify_cert (CertValidationB.verify_callback env) ctx v s).1 = v.result :=
  X509_verify_cert_result (cvB_callback_quiet env) ctx v s

@[simp] theorem cvB_verify_trace (env : CertValidationB.Env) (ctx : Ptr) (v : VerifyRun) (s : State) :
    (X509_verify_cert (CertValidationB.verify_callback env) ctx v s).2.trace
      = s.trace ++ [Call.X509_verify_cert ctx v.result] := by
  rw [X509_verify_cert_trace (cvB_callback_quiet env) ctx v s, cvB_verify_result]

@[simp] theorem cvB_verify_stdout (env : CertValidationB.Env) (ctx : Ptr) (v : VerifyRun) (s : State) :
    (X509_verify_cert (CertValidationB.verify_callback env) ctx v s).2.stdout = s.stdout :=
  X509_verify_cert_stdout (cvB_callback_quiet env) ctx v s

theorem cvB_setup_failed (K : Hdr) (env : CertValidationB.Env) (argc : Int) (argv : List String)
    (h : ¬ CertValidationB.setupOk env) : SetupFailed (CertValidationB.main K env argc argv) := by
  unfold CertValidationB.main
  by_cases h1 : env.fopen_client = 0
  · constructor <;> simp [*]
  by_cases h2 : env.PEM_read_X509_client = 0
  · constructor <;> simp [*]
  by_cases h3 : env.fopen_ca = 0
  · constructor <;> simp [*]
  by_cases h4 : env.PEM_read_X509_ca = 0
  · constructor <;> simp [*]
  by_cases h5 : env.fopen_crl = 0
  · constructor <;> simp [*]
  by_cases h6 : env.PEM_read_X509_CRL = 0
  · constructor <;> simp [*]
  by_cases h7 : env.X509_STORE_new = 0
  · constructor <;> simp [*]
  by_cases h8 : env.X509_STORE_add_cert = 1
  swap
  · constructor <;> simp [*]
  by_cases h9 : env.X509_STORE_add_crl = 1
  swap
  · constructor <;> simp [*]
  by_cases h10 : env.sk_X509_new_null = 0
  · constructor <;> simp [*]
  by_cases h11 : env.sk_X509_CRL_new_null = 0
  · constructor <;> simp [*]
  by_cases h12 : env.sk_X509_CRL_push = 1
  swap
  · constructor <;> simp [*]
  by_cases h13 : env.X509_STORE_CTX_new = 0
  · constructor <;> simp [*]
  by_cases h14 : env.X509_STORE_CTX_init = 1
  swap
  · constructor <;> simp [*]
  exact absurd ⟨h1, h2, h3, h4, h5, h6, h7, h8, h9, h10, h11, h12, h13, h14⟩ h

theorem cvB_setup_ok (K : Hdr) (env : CertValidationB.Env) (argc : Int) (argv : List String)
    (h : CertValidationB.setupOk env) :
    Reached (CertValidationB.main K env argc argv) (CertValidationB.setupCalls K env)
      env.X509_STORE_CTX_new env.X509_verify_cert.result := by
  obtain ⟨h1, h2, h3, h4, h5, h6, h7, h8, h9, h10, h11, h12, h13, h14⟩ := h
  unfold CertValidationB.main
  by_cases hv : env.X509_verify_cert.result = 1
  · constructor <;> simp [*, CertValidationB.setupCalls, successText]
  · constructor <;> simp [*, CertValidationB.setupCalls, successText]

/-! ## Lemmas on `ChainExample.main` -/

theorem chain_callback_quiet (env : ChainExample.Env) : QuietCallback (ChainExample.verify_callback env) := by
  intro ok c s
  unfold ChainExample.verify_callback
  split_ifs <;> exact ⟨rfl, rfl, rfl⟩

@[simp] theorem chain_int_error_trace (env : ChainExample.Env) (l : Int) (m : String) (s : State) :
    (ChainExample.int_error env l m s).trace
      = s.trace ++ [Call.ERR_print_errors_fp, Call.exit (-1)] := by
  simp [ChainExample.int_error, ChainExample.handle_error]

@[simp] theorem chain_int_error_stdout (env : ChainExample.Env) (l : Int) (m : String) (s : State) :
    (ChainExample.int_error env l m s).stdout = s.stdout := rfl

@[simp] theorem chain_int_error_status (env : ChainExample.Env) (l : Int) (m : String) (s : State) :
    (ChainExample.int_error env l m s).status = -1 := rfl

@[simp] theorem chain_verify_result (env : ChainExample.Env) (ctx : Ptr) (v : VerifyRun) (s : State) :
    (X509_verify_cert (ChainExample.verify_callback env) ctx v s).1 = v.result :=
  X509_verify_cert_result (chain_callback_quiet env) ctx v s

@[simp] theorem chain_verify_trace (env : ChainExample.Env) (ctx : Ptr) (v : VerifyRun) (s : State) :
    (X509_verify_cert (ChainExample.verify_callback env) ctx v s).2.trace
      = s.trace ++ [Call.X509_verify_cert ctx v.result] := by
  rw [X509_verify_cert_trace (chain_callback_quiet env) ctx v s, chain_verify_result]

@[simp] theorem chain_verify_stdout (env : ChainExample.Env) (ctx : Ptr) (v : VerifyRun) (s : State) :
    (X509_verify_cert (ChainExample.verify_callback env) ctx v s).2.stdout = s.stdout :=
  X509_verify_cert_stdout (chain_callback_quiet env) ctx v s

theorem chain_setup_failed (env : ChainExample.Env) (argc : Int) (argv : List String)
    (h : ¬ ChainExample.setupOk env) : SetupFailed (ChainExample.main env argc argv) := by
  unfold ChainExample.main
  by_cases h1 : env.fopen_test = 0
  · constructor <;> simp [*]
  by_cases h2 : env.PEM_read_X509 = 0
  · constructor <;> simp [*]
  by_cases h3 : env.X509_STORE_new = 0
  · constructor <;> simp [*]
  by_cases h4 : env.X509_STORE_load_locations = 1
  swap
  · constructor <;> simp [*]
  by_cases h5 : env.X509_STORE_set_default_paths = 1
  swap
  · constructor <;> simp [*]
  by_cases h6 : env.X509_STORE_CTX_new = 0
  · constructor <;> simp [*]
  by_cases h7 : env.X509_STORE_CTX_init = 1
  swap
  · constructor <;> simp [*]
  exact absurd ⟨h1, h2, h3, h4, h5, h6, h7⟩ h

theorem chain_setup_ok (env : ChainExample.Env) (argc : Int) (argv : List String)
    (h : ChainExample.setupOk env) :
    Reached (ChainExample.main env argc argv) (ChainExample.setupCalls env)
      env.X509_STORE_CTX_new env.X509_verify_cert.result := by
  obtain ⟨h1, h2, h3, h4, h5, h6, h7⟩ := h
  unfold ChainExample.main
  by_cases hv : env.X509_verify_cert.result = 1
  · constructor <;> simp [*, ChainExample.setupCalls, successText]
  · constructor <;> simp [*, ChainExample.setupCalls, successText]

/-! ## The text on stderr of `CertValidation.main` -/

@[simp] theorem cv_int_error_stderr (env : CertValidation.Env) (l : Int) (m : String) (s : State) :
    (CertValidation.int_error env l m s).stderr
      = s.stderr ++ errorLine CertValidation.FILE l m ++ env.ERR_print_errors_fp := rfl

@[simp] theorem cv_verify_stderr (env : CertValidation.Env) (ctx : Ptr) (v : VerifyRun) (s : State) :
    (X509_verify_cert (CertValidation.verify_callback env) ctx v s).2.stderr
      = s.stderr ++ verifyText env.X509_verify_cert_error_string v := by
  induction v generalizing s with
  | ret r => simp [X509_verify_cert, verifyText]
  | cb ok c k ih =>
    rw [X509_verify_cert, ih, verifyText]
    by_cases h : ok = 0 <;> simp [CertValidation.verify_callback, h, String.append_assoc]

theorem cv_stops (K : Hdr) (env : CertValidation.Env) (argc : Int) (argv : List String)
    (h : ¬ CertValidation.setupOk env) :
    StopsAt CertValidation.stops CertValidation.FILE env.ERR_print_errors_fp (CertValidation.main K env argc argv) := by
  unfold CertValidation.main
  by_cases h1 : env.fopen_client = 0
  · exact ⟨(5, 39, "Error reading client certificate file"), by simp [CertValidation.stops], by simp [*], by simp [*]⟩
  by_cases h2 : env.PEM_read_X509 = 0
  · exact ⟨(6, 42, "Error reading client certificate in file"), by simp [CertValidation.stops], by simp [*], by simp [*]⟩
  by_cases h3 : env.X509_STORE_new = 0
  · exact ⟨(8, 48, "Error creating X509_STORE_CTX object"), by simp [CertValidation.stops], by simp [*], by simp [*]⟩
  by_cases h4 : env.X509_STORE_load_locations = 1
  swap
  · exact ⟨(10, 54, "Error loading the CA file or directory"), by simp [CertValidation.stops], by simp [*], by simp [*]⟩
  by_cases h5 : env.X509_STORE_set_default_paths = 1
  swap
  · exact ⟨(11, 57, "Error loading the system-wide CA certificates"), by simp [CertValidation.stops], by simp [*], by simp [*]⟩
  by_cases h6 : env.X509_STORE_add_lookup = 0
  · exact ⟨(13, 60, "Error creating X509_LOOKUP object"), by simp [CertValidation.stops], by simp [*], by simp [*]⟩
  by_cases h7 : env.X509_load_crl_file = 1
  swap
  · exact ⟨(14, 63, "Error reading the CRL file"), by simp [CertValidation.stops], by simp [*], by simp [*]⟩
  by_cases h8 : env.X509_STORE_CTX_new = 0
  · exact ⟨(16, 71, "Error creating X509_STORE_CTX object"), by simp [CertValidation.stops], by simp [*], by simp [*]⟩
  by_cases h9 : env.X509_STORE_CTX_init = 1
  swap
  · exact ⟨(17, 74, "Error initializing verification context"), by simp [CertValidation.stops], by simp [*], by simp [*]⟩
  exact absurd ⟨h1, h2, h3, h4, h5, h6, h7, h8, h9⟩ h

theorem cv_reached_stderr (K : Hdr) (env : CertValidation.Env) (argc : Int) (argv : List String)
    (h : CertValidation.setupOk env) :
    (CertValidation.main K env argc argv).stderr
      = verifyText env.X509_verify_cert_error_string env.X509_verify_cert ++
          (if env.X509_verify_cert.result = 1 then ""
           else errorLine CertValidation.FILE 79 "Error verifying the certificate" ++ env.ERR_print_errors_fp) := by
  obtain ⟨h1, h2, h3, h4, h5, h6, h7, h8, h9⟩ := h
  unfold CertValidation.main
  by_cases hv : env.X509_verify_cert.result = 1
  · simp [*]
  · simp [*, String.append_assoc]

/-! ## The text on stderr of `CertValidationB.main` -/

@[simp] theorem cvB_int_error_stderr (env : CertValidationB.Env) (l : Int) (m : String) (s : State) :
    (CertValidationB.int_error env l m s).stderr
      = s.stderr ++ errorLine CertValidationB.FILE l m ++ env.ERR_print_errors_fp := rfl

@[simp] theorem cvB_verify_stderr (env : CertValidationB.Env) (ctx : Ptr) (v : VerifyRun) (s : State) :
    (X509_verify_cert (CertValidationB.verify_callback env) ctx v s).2.stderr
      = s.stderr ++ verifyText env.X509_verify_cert_error_string v := by
  induction v generalizing s with
  | ret r => simp [X509_verify_cert, verifyText]
  | cb ok c k ih =>
    rw [X509_verify_cert, ih, verifyText]
    by_cases h : ok = 0 <;> simp [CertValidationB.verify_callback, h, String.append_assoc]

theorem cvB_stops (K : Hdr) (env : CertValidationB.Env) (argc : Int) (argv : List String)
    (h : ¬ CertValidationB.setupOk env) :
    StopsAt CertValidationB.stops CertValidationB.FILE env.ERR_print_errors_fp (CertValidationB.main K env argc argv) := by
  unfold CertValidationB.main
  by_cases h1 : env.fopen_client = 0
  · exact ⟨(5, 49, "Error reading client certificate file"), by simp [CertValidationB.stops], by simp [*], by simp [*]⟩
  by_cases h2 : env.PEM_read_X509_client = 0
  · exact ⟨(6, 52, "Error reading client certificate in file"), by simp [CertValidationB.stops], by simp [*], by simp [*]⟩
  by_cases h3 : env.fopen_ca = 0
  · exact ⟨(8, 58, "Error reading CA certificate file"), by simp [CertValidationB.stops], by simp [*], by simp [*]⟩
  by_cases h4 : env.PEM_read_X509_ca = 0
  · exact ⟨(9, 61, "Error reading CA certificate in file"), by simp [CertValidationB.stops], by simp [*], by simp [*]⟩
  by_cases h5 : env.fopen_crl = 0
  · exact ⟨(11, 67, "Error opening CRL file"), by simp [CertValidationB.stops], by simp [*], by simp [*]⟩
  by_cases h6 : env.PEM_read_X509_CRL = 0
  · exact ⟨(12, 70, "Error reading CRL"), by simp [CertValidationB.stops], by simp [*], by simp [*]⟩
  by_cases h7 : env.X509_STORE_new = 0
  · exact ⟨(14, 76, "Error creating X509_STORE_CTX object"), by simp [CertValidationB.stops], by simp [*], by simp [*]⟩
  by_cases h8 : env.X509_STORE_add_cert = 1
  swap
  · exact ⟨(15, 80, "Error adding CA certificate to certificate store"), by simp [CertValidationB.stops], by simp [*], by simp [*]⟩
  by_cases h9 : env.X509_STORE_add_crl = 1
  swap
  · exact ⟨(16, 84, "Error adding CRL to certificate store"), by simp [CertValidationB.stops], by simp [*], by simp [*]⟩
  by_cases h10 : env.sk_X509_new_null = 0
  · exact ⟨(19, 92, "Error creating X509_Stack"), by simp [CertValidationB.stops], by simp [*], by simp [*]⟩
  by_cases h11 : env.sk_X509_CRL_new_null = 0
  · exact ⟨(20, 96, "Error creating X509_CRL"), by simp [CertValidationB.stops], by simp [*], by simp [*]⟩
  by_cases h12 : env.sk_X509_CRL_push = 1
  swap
  · exact ⟨(21, 100, "Error adding a CRL to the Stack of CRLs"), by simp [CertValidationB.stops], by simp [*], by simp [*]⟩
  by_cases h13 : env.X509_STORE_CTX_new = 0
  · exact ⟨(22, 105, "Error creating X509_STORE_CTX object"), by simp [CertValidationB.stops], by simp [*], by simp [*]⟩
  by_cases h14 : env.X509_STORE_CTX_init = 1
  swap
  · exact ⟨(23, 109, "Error initializing verification context"), by simp [CertValidationB.stops], by simp [*], by simp [*]⟩
  exact absurd ⟨h1, h2, h3, h4, h5, h6, h7, h8, h9, h10, h11, h12, h13, h14⟩ h

theorem cvB_reached_stderr (K : Hdr) (env : CertValidationB.Env) (argc : Int) (argv : List String)
    (h : CertValidationB.setupOk env) :
    (CertValidationB.main K env argc argv).stderr
      = verifyText env.X509_verify_cert_error_string env.X509_verify_cert ++
          (if env.X509_verify_cert.result = 1 then ""
           else errorLine CertValidationB.FILE 114 "Error verifying the certificate" ++ env.ERR_print_errors_fp) := by
  obtain ⟨h1, h2, h3, h4, h5, h6, h7, h8, h9, h10, h11, h12, h13, h14⟩ := h
  unfold CertValidationB.main
  by_cases hv : env.X509_verify_cert.result = 1
  · simp [*]
  · simp [*, String.append_assoc]

/-! ## The text on stderr of `ChainExample.main` -/

@[simp] theorem chain_int_error_stderr (env : ChainExample.Env) (l : Int) (m : String) (s : State) :
    (ChainExample.int_error env l m s).stderr
      = s.stderr ++ errorLine ChainExample.FILE l m ++ env.ERR_print_errors_fp := rfl

@[simp] theorem chain_verify_stderr (env : ChainExample.Env) (ctx : Ptr) (v : VerifyRun) (s : State) :
    (X509_verify_cert (ChainExample.verify_callback env) ctx v s).2.stderr
      = s.stderr ++ verifyText env.X509_verify_cert_error_string v := by
  induction v generalizing s with
  | ret r => simp [X509_verify_cert, verifyText]
  | cb ok c k ih =>
    rw [X509_verify_cert, ih, verifyText]
    by_cases h : ok = 0 <;> simp [ChainExample.verify_callback, h, String.append_assoc]

theorem chain_stops (env : ChainExample.Env) (argc : Int) (argv : List String)
    (h : ¬ ChainExample.setupOk env) :
    StopsAt ChainExample.stops ChainExample.FILE env.ERR_print_errors_fp (ChainExample.main env argc argv) := by
  unfold ChainExample.main
  by_cases h1 : env.fopen_test = 0
  · exact ⟨(5, 46, "Error reading client certificate file"), by simp [ChainExample.stops], by simp [*], by simp [*]⟩
  by_cases h2 : env.PEM_read_X509 = 0
  · exact ⟨(6, 49, "Error reading client certificate in file"), by simp [ChainExample.stops], by simp [*], by simp [*]⟩
  by_cases h3 : env.X509_STORE_new = 0
  · exact ⟨(8, 55, "Error creating X509_STORE_CTX object"), by simp [ChainExample.stops], by simp [*], by simp [*]⟩
  by_cases h4 : env.X509_STORE_load_locations = 1
  swap
  · exact ⟨(10, 61, "Error loading the CA file or directory"), by simp [ChainExample.stops], by simp [*], by simp [*]⟩
  by_cases h5 : env.X509_STORE_set_default_paths = 1
  swap
  · exact ⟨(11, 64, "Error loading the system-wide CA certificates"), by simp [ChainExample.stops], by simp [*], by simp [*]⟩
  by_cases h6 : env.X509_STORE_CTX_new = 0
  · exact ⟨(12, 68, "Error creating X509_STORE_CTX object"), by simp [ChainExample.stops], by simp [*], by simp [*]⟩
  by_cases h7 : env.X509_STORE_CTX_init = 1
  swap
  · exact ⟨(13, 71, "Error initializing verification context"), by simp [ChainExample.stops], by simp [*], by simp [*]⟩
  exact absurd ⟨h1, h2, h3, h4, h5, h6, h7⟩ h

theorem chain_reached_stderr (env : ChainExample.Env) (argc : Int) (argv : List String)
    (h : ChainExample.setupOk env) :
    (ChainExample.main env argc argv).stderr
      = verifyText env.X509_verify_cert_error_string env.X509_verify_cert ++
          (if env.X509_verify_cert.result = 1 then ""
           else errorLine ChainExample.FILE 75 "Error verifying the certificate" ++ env.ERR_print_errors_fp) := by
  obtain ⟨h1, h2, h3, h4, h5, h6, h7⟩ := h
  unfold ChainExample.main
  by_cases hv : env.X509_verify_cert.result = 1
  · simp [*]
  · simp [*, String.append_assoc]

/-! ## Shared consequences -/

theorem successIff_of_failed {run : Run} {pass : Prop} (h : SetupFailed run) (hp : ¬ pass) :
    SuccessIff run pass := by
  refine ⟨⟨fun hs => ?_, fun hq => absurd hq hp⟩, fun _ => ⟨h.status, h.exits, h.stdout⟩⟩
  have h0 := hs.2.1
  rw [h.status] at h0
  exact absurd h0 (by decide)

theorem exitCalls_append (a b : List Call) :
    exitCalls (a ++ b) = exitCalls a ++ exitCalls b := by
  induction a with
  | nil => rfl
  | cons c t ih => cases c <;> simp [ih]

theorem successIff_of_reached {run : Run} {pass : Prop} {pre : List Call} {ctx : Ptr} {r : Int}
    (h : Reached run pre ctx r) (hpre : exitCalls pre = []) (hp : pass ↔ r = 1) :
    SuccessIff run pass := by
  unfold SuccessIff
  rw [h.status, h.stdout, h.trace, exitCalls_append, hpre, hp]
  by_cases hr : r = 1
  · simp [hr]
  · simp [hr, successText]

/-! ## The claims -/

/-- C1: in each of the three programs, for every combination of results of the
external calls, `main` prints the success line and returns 0 if and only if
every checked step succeeded and `X509_verify_cert` returned exactly 1; in every
other case the program calls `exit(-1)` and prints nothing on stdout. -/
theorem C1_success_iff_all_checks_pass (K : Hdr) (argc : Int) (argv : List String) :
    (∀ env : CertValidation.Env,
      SuccessIff (CertValidation.main K env argc argv) (CertValidation.allChecksPass env)) ∧
    (∀ env : CertValidationB.Env,
      SuccessIff (CertValidationB.main K env argc argv) (CertValidationB.allChecksPass env)) ∧
    (∀ env : ChainExample.Env,
      SuccessIff (ChainExample.main env argc argv) (ChainExample.allChecksPass env)) := by
  refine ⟨fun env => ?_, fun env => ?_, fun env => ?_⟩
  · by_cases h : CertValidation.setupOk env
    · exact successIff_of_reached (cv_setup_ok K env argc argv h)
        (by simp [CertValidation.setupCalls]) (by simp [CertValidation.allChecksPass, h])
    · exact successIff_of_failed (cv_setup_failed K env argc argv h) (fun hp => h hp.1)
  · by_cases h : CertValidationB.setupOk env
    · exact successIff_of_reached (cvB_setup_ok K env argc argv h)
        (by simp [CertValidationB.setupCalls]) (by simp [CertValidationB.allChecksPass, h])
    · exact successIff_of_failed (cvB_setup_failed K env argc argv h) (fun hp => h hp.1)
  · by_cases h : ChainExample.setupOk env
    · exact successIff_of_reached (chain_setup_ok env argc argv h)
        (by simp [ChainExample.setupCalls]) (by simp [ChainExample.allChecksPass, h])
    · exact successIff_of_failed (chain_setup_failed env argc argv h) (fun hp => h hp.1)

/-- Witness for C1: when every call succeeds the success line is printed and
`main` returns 0; with a revoked leaf certificate the checks do not all pass,
and the program calls `exit(-1)` without printing the success line. -/
theorem C1_success_iff_all_checks_pass_witness :
    (CertValidation.allChecksPass cvEnvOk ∧
      (CertValidation.main K0 cvEnvOk 1 ["cert_validation"]).stdout = successText ∧
      (CertValidation.main K0 cvEnvOk 1 ["cert_validation"]).status = 0) ∧
    (¬ CertValidation.allChecksPass cvEnvRevoked ∧
      (CertValidation.main K0 cvEnvRevoked 1 ["cert_validation"]).status = -1 ∧
      exitCalls (CertValidation.main K0 cvEnvRevoked 1 ["cert_validation"]).trace = [-1] ∧
      (CertValidation.main K0 cvEnvRevoked 1 ["cert_validation"]).stdout = "") :=
  have hp : CertValidation.allChecksPass cvEnvOk := by
    unfold CertValidation.allChecksPass CertValidation.setupOk
    decide
  have hn : ¬ CertValidation.allChecksPass cvEnvRevoked := by
    intro hp
    exact absurd hp.2 (by decide)
  have h1 := ((C1_success_iff_all_checks_pass K0 1 ["cert_validation"]).1 cvEnvOk).1.mpr hp
  ⟨⟨hp, h1.1, h1.2.1⟩,
   ⟨hn, ((C1_success_iff_all_checks_pass K0 1 ["cert_validation"]).1 cvEnvRevoked).2 hn⟩⟩

/-- C5: absence of the required CRL is a hard failure.  In
`c_api_examples/cert_validation.c`, if `X509_load_crl_file` does not return 1,
and in `c_api_examples/cert_validation_B.c`, if the CRL file cannot be opened,
`PEM_read_X509_CRL` returns `NULL`, `X509_STORE_add_crl` does not return 1 or
`sk_X509_CRL_push` does not return 1, the program ends in `exit(-1)` and never
calls `X509_verify_cert`. -/
theorem C5_missing_crl_is_fatal (K : Hdr) (argc : Int) (argv : List String) :
    (∀ env : CertValidation.Env, env.X509_load_crl_file ≠ 1 →
      FailsBeforeVerify (CertValidation.main K env argc argv)) ∧
    (∀ env : CertValidationB.Env, CertValidationB.crlMissing env →
      FailsBeforeVerify (CertValidationB.main K env argc argv)) := by
  constructor
  · intro env h
    have hf := cv_setup_failed K env argc argv (fun hs => h hs.2.2.2.2.2.2.1)
    exact ⟨hf.status, hf.exits, hf.noVerify⟩
  · intro env h
    have hn : ¬ CertValidationB.setupOk env := by
      rintro ⟨-, -, -, -, h5, h6, -, -, h9, -, -, h12, -, -⟩
      rcases h with h | h | h | h
      · exact h5 h
      · exact h6 h
      · exact h h9
      · exact h h12
    have hf := cvB_setup_failed K env argc argv hn
    exact ⟨hf.status, hf.exits, hf.noVerify⟩

/-- Witness for C5: a run of `c_api_examples/cert_validation.c` whose CRL file
cannot be loaded, and a run of `c_api_examples/cert_validation_B.c` whose CRL
file cannot be opened. -/
theorem C5_missing_crl_is_fatal_witness :
    (cvEnvNoCRL.X509_load_crl_file ≠ 1 ∧
      FailsBeforeVerify (CertValidation.main K0 cvEnvNoCRL 1 ["cert_validation"])) ∧
    (CertValidationB.crlMissing cvBEnvNoCRL ∧
      FailsBeforeVerify (CertValidationB.main K0 cvBEnvNoCRL 1 ["cert_validation_B"])) :=
  ⟨⟨by decide,
    (C5_missing_crl_is_fatal K0 1 ["cert_validation"]).1 cvEnvNoCRL (by decide)⟩,
   ⟨Or.inl rfl,
    (C5_missing_crl_is_fatal K0 1 ["cert_validation_B"]).2 cvBEnvNoCRL (Or.inl rfl)⟩⟩

/-- C9: the trust store is built once and is read-only during verification.  In
each of the three programs, on every execution path, no call that changes the
store comes at or after `X509_STORE_CTX_init`, and `X509_verify_cert` is called
at most once. -/
theorem C9_store_frozen_after_init (K : Hdr) (argc : Int) (argv : List String) :
    (∀ env : CertValidation.Env,
      storeFrozenAfterInit (CertValidation.main K env argc argv).trace = true ∧
      verifyCalls (CertValidation.main K env argc argv).trace ≤ 1) ∧
    (∀ env : CertValidationB.Env,
      storeFrozenAfterInit (CertValidationB.main K env argc argv).trace = true ∧
      verifyCalls (CertValidationB.main K env argc argv).trace ≤ 1) ∧
    (∀ env : ChainExample.Env,
      storeFrozenAfterInit (ChainExample.main env argc argv).trace = true ∧
      verifyCalls (ChainExample.main env argc argv).trace ≤ 1) := by
  refine ⟨fun env => ?_, fun env => ?_, fun env => ?_⟩
  · by_cases h : CertValidation.setupOk env
    · rw [(cv_setup_ok K env argc argv h).trace]
      by_cases hv : env.X509_verify_cert.result = 1 <;> simp [CertValidation.setupCalls, hv]
    · have hf := cv_setup_failed K env argc argv h
      exact ⟨hf.frozen, by rw [hf.noVerify]; exact Nat.zero_le 1⟩
  · by_cases h : CertValidationB.setupOk env
    · rw [(cvB_setup_ok K env argc argv h).trace]
      by_cases hv : env.X509_verify_cert.result = 1 <;> simp [CertValidationB.setupCalls, hv]
    · have hf := cvB_setup_failed K env argc argv h
      exact ⟨hf.frozen, by rw [hf.noVerify]; exact Nat.zero_le 1⟩
  · by_cases h : ChainExample.setupOk env
    · rw [(chain_setup_ok env argc argv h).trace]
      by_cases hv : env.X509_verify_cert.result = 1 <;> simp [ChainExample.setupCalls, hv]
    · have hf := chain_setup_failed env argc argv h
      exact ⟨hf.frozen, by rw [hf.noVerify]; exact Nat.zero_le 1⟩

theorem not_reached_of_failed {run : Run} (h : SetupFailed run) : ¬ reachesVerify run := by
  unfold reachesVerify
  rw [h.noVerify]
  exact Nat.lt_irrefl 0

theorem setupOk_of_reaches_cv {K : Hdr} {env : CertValidation.Env} {argc : Int}
    {argv : List String} (h : reachesVerify (CertValidation.main K env argc argv)) :
    CertValidation.setupOk env := by
  by_contra hn
  exact not_reached_of_failed (cv_setup_failed K env argc argv hn) h

theorem setupOk_of_reaches_cvB {K : Hdr} {env : CertValidationB.Env} {argc : Int}
    {argv : List String} (h : reachesVerify (CertValidationB.main K env argc argv)) :
    CertValidationB.setupOk env := by
  by_contra hn
  exact not_reached_of_failed (cvB_setup_failed K env argc argv hn) h

theorem setupOk_of_reaches_chain {env : ChainExample.Env} {argc : Int}
    {argv : List String} (h : reachesVerify (ChainExample.main env argc argv)) :
    ChainExample.setupOk env := by
  by_contra hn
  exact not_reached_of_failed (chain_setup_failed env argc argv hn) h

/-- C4: in `c_api_examples/cert_validation.c` and
`c_api_examples/cert_validation_B.c`, on every execution that reaches
`X509_verify_cert`, the program set flags on the store exactly once, the value
set is `X509_V_FLAG_CRL_CHECK | X509_V_FLAG_CRL_CHECK_ALL`, which has both bits,
and it was already set when `X509_STORE_CTX_init` was called. -/
theorem C4_crl_check_all_set_before_init (K : Hdr) (argc : Int) (argv : List String) :
    (∀ env : CertValidation.Env, reachesVerify (CertValidation.main K env argc argv) →
      atVerify (setFlagsCalls env.X509_STORE_new) (CertValidation.main K env argc argv).trace
        = some [K.X509_V_FLAG_CRL_CHECK ||| K.X509_V_FLAG_CRL_CHECK_ALL] ∧
      atInit (setFlagsCalls env.X509_STORE_new) (CertValidation.main K env argc argv).trace
        = some [K.X509_V_FLAG_CRL_CHECK ||| K.X509_V_FLAG_CRL_CHECK_ALL]) ∧
    (∀ env : CertValidationB.Env, reachesVerify (CertValidationB.main K env argc argv) →
      atVerify (setFlagsCalls env.X509_STORE_new) (CertValidationB.main K env argc argv).trace
        = some [K.X509_V_FLAG_CRL_CHECK ||| K.X509_V_FLAG_CRL_CHECK_ALL] ∧
      atInit (setFlagsCalls env.X509_STORE_new) (CertValidationB.main K env argc argv).trace
        = some [K.X509_V_FLAG_CRL_CHECK ||| K.X509_V_FLAG_CRL_CHECK_ALL]) ∧
    (K.X509_V_FLAG_CRL_CHECK ||| K.X509_V_FLAG_CRL_CHECK_ALL) &&& K.X509_V_FLAG_CRL_CHECK
      = K.X509_V_FLAG_CRL_CHECK ∧
    (K.X509_V_FLAG_CRL_CHECK ||| K.X509_V_FLAG_CRL_CHECK_ALL) &&& K.X509_V_FLAG_CRL_CHECK_ALL
      = K.X509_V_FLAG_CRL_CHECK_ALL := by
  refine ⟨fun env hr => ?_, fun env hr => ?_, ?_, ?_⟩
  · rw [(cv_setup_ok K env argc argv (setupOk_of_reaches_cv hr)).trace]
    simp [atVerify, atInit, CertValidation.setupCalls]
  · rw [(cvB_setup_ok K env argc argv (setupOk_of_reaches_cvB hr)).trace]
    simp [atVerify, atInit, CertValidationB.setupCalls]
  · simpa using or_and_left_flag 0 K.X509_V_FLAG_CRL_CHECK K.X509_V_FLAG_CRL_CHECK_ALL
  · simpa using or_and_right_flag 0 K.X509_V_FLAG_CRL_CHECK K.X509_V_FLAG_CRL_CHECK_ALL

/-- Witness for C4: a run of `c_api_examples/cert_validation_B.c` in which every
call succeeds reaches `X509_verify_cert` with the value 12 set on the store. -/
theorem C4_crl_check_all_set_before_init_witness :
    reachesVerify (CertValidationB.main K0 cvBEnvOk 1 ["cert_validation_B"]) ∧
    atInit (setFlagsCalls cvBEnvOk.X509_STORE_new)
      (CertValidationB.main K0 cvBEnvOk 1 ["cert_validation_B"]).trace = some [12] :=
  have hr : reachesVerify (CertValidationB.main K0 cvBEnvOk 1 ["cert_validation_B"]) := by
    unfold reachesVerify
    decide
  ⟨hr, ((C4_crl_check_all_set_before_init K0 1 ["cert_validation_B"]).2.1 cvBEnvOk hr).2⟩

/-- C3, as stated, fails: the chain example in which every call succeeds reaches
`X509_verify_cert` on a store created without flags, and the flags of the store
are then still 0, which does not include `X509_V_FLAG_CRL_CHECK` (0x4). -/
theorem C3_counterexample_chain_example_no_crl_check :
    reachesVerify (ChainExample.main chainEnvOk 1 ["cert_validation"]) ∧
    atVerify (storeFlags 0 chainEnvOk.X509_STORE_new)
      (ChainExample.main chainEnvOk 1 ["cert_validation"]).trace = some 0 ∧
    ¬ ((0 : Nat) &&& K0.X509_V_FLAG_CRL_CHECK = K0.X509_V_FLAG_CRL_CHECK) := by
  unfold reachesVerify
  decide

/-- C3, amended: in `c_api_examples/cert_validation.c` and
`c_api_examples/cert_validation_B.c`, at the moment `X509_verify_cert` is called
the flags of the store include `X509_V_FLAG_CRL_CHECK`, whatever flags the store
was created with; `chain_example/c_api_examples/cert_validation.c` never sets a
flag, so there the flags are those the store was created with. -/
theorem C3_crl_check_enabled_where_set (K : Hdr) (flags0 : Nat) (argc : Int)
    (argv : List String) :
    (∀ env : CertValidation.Env, reachesVerify (CertValidation.main K env argc argv) →
      ∃ flags, atVerify (storeFlags flags0 env.X509_STORE_new)
          (CertValidation.main K env argc argv).trace = some flags ∧
        flags &&& K.X509_V_FLAG_CRL_CHECK = K.X509_V_FLAG_CRL_CHECK) ∧
    (∀ env : CertValidationB.Env, reachesVerify (CertValidationB.main K env argc argv) →
      ∃ flags, atVerify (storeFlags flags0 env.X509_STORE_new)
          (CertValidationB.main K env argc argv).trace = some flags ∧
        flags &&& K.X509_V_FLAG_CRL_CHECK = K.X509_V_FLAG_CRL_CHECK) ∧
    (∀ env : ChainExample.Env, reachesVerify (ChainExample.main env argc argv) →
      atVerify (storeFlags flags0 env.X509_STORE_new)
          (ChainExample.main env argc argv).trace = some flags0 ∧
      setFlagsCalls env.X509_STORE_new (ChainExample.main env argc argv).trace = []) := by
  refine ⟨fun env hr => ?_, fun env hr => ?_, fun env hr => ?_⟩
  · refine ⟨flags0 ||| (K.X509_V_FLAG_CRL_CHECK ||| K.X509_V_FLAG_CRL_CHECK_ALL), ?_,
      or_and_left_flag _ _ _⟩
    rw [(cv_setup_ok K env argc argv (setupOk_of_reaches_cv hr)).trace]
    simp [atVerify, storeFlags, CertValidation.setupCalls]
  · refine ⟨flags0 ||| (K.X509_V_FLAG_CRL_CHECK ||| K.X509_V_FLAG_CRL_CHECK_ALL), ?_,
      or_and_left_flag _ _ _⟩
    rw [(cvB_setup_ok K env argc argv (setupOk_of_reaches_cvB hr)).trace]
    simp [atVerify, storeFlags, CertValidationB.setupCalls]
  · rw [(chain_setup_ok env argc argv (setupOk_of_reaches_chain hr)).trace]
    by_cases hv : env.X509_verify_cert.result = 1 <;>
      simp [atVerify, storeFlags, ChainExample.setupCalls, hv]

/-- Witness for the amended C3: the chain example in which every call succeeds
reaches `X509_verify_cert` with the flags the store was created with. -/
theorem C3_crl_check_enabled_where_set_witness :
    reachesVerify (ChainExample.main chainEnvOk 1 ["cert_validation"]) ∧
    atVerify (storeFlags 0 chainEnvOk.X509_STORE_new)
      (ChainExample.main chainEnvOk 1 ["cert_validation"]).trace = some 0 :=
  have hr : reachesVerify (ChainExample.main chainEnvOk 1 ["cert_validation"]) := by
    unfold reachesVerify
    decide
  ⟨hr, ((C3_crl_check_enabled_where_set K0 0 1 ["cert_validation"]).2.2 chainEnvOk hr).1⟩

/-- C10: in `c_api_examples/cert_validation_B.c`, on every execution that
reaches `X509_verify_cert`, the stack of untrusted certificates given to the
verification context is the one made by `sk_X509_new_null` and nothing was pushed
on it; the stack of CRLs given to it holds exactly the CRL that was added to the
store; the store holds exactly the CA certificate and reads nothing from files
or directories. -/
theorem C10_only_ca_and_one_crl (K : Hdr) (argc : Int) (argv : List String)
    (env : CertValidationB.Env)
    (hr : reachesVerify (CertValidationB.main K env argc argv)) :
    atVerify (untrustedGiven env.X509_STORE_CTX_new)
      (CertValidationB.main K env argc argv).trace = some [env.sk_X509_new_null] ∧
    atVerify (x509StackContents env.sk_X509_new_null)
      (CertValidationB.main K env argc argv).trace = some [] ∧
    atVerify (crlsGiven env.X509_STORE_CTX_new)
      (CertValidationB.main K env argc argv).trace = some [env.sk_X509_CRL_new_null] ∧
    atVerify (crlStackContents env.sk_X509_CRL_new_null)
      (CertValidationB.main K env argc argv).trace = some [env.PEM_read_X509_CRL] ∧
    atVerify (storeCRLs env.X509_STORE_new)
      (CertValidationB.main K env argc argv).trace = some [env.PEM_read_X509_CRL] ∧
    atVerify (storeCerts env.X509_STORE_new)
      (CertValidationB.main K env argc argv).trace = some [env.PEM_read_X509_ca] ∧
    atVerify loadsFromDisk (CertValidationB.main K env argc argv).trace = some false := by
  rw [(cvB_setup_ok K env argc argv (setupOk_of_reaches_cvB hr)).trace]
  simp [atVerify, CertValidationB.setupCalls]

/-- Witness for C10: the run of `c_api_examples/cert_validation_B.c` in which
every call succeeds. -/
theorem C10_only_ca_and_one_crl_witness :
    reachesVerify (CertValidationB.main K0 cvBEnvOk 1 ["cert_validation_B"]) ∧
    atVerify (crlStackContents cvBEnvOk.sk_X509_CRL_new_null)
      (CertValidationB.main K0 cvBEnvOk 1 ["cert_validation_B"]).trace = some [21] :=
  have hr : reachesVerify (CertValidationB.main K0 cvBEnvOk 1 ["cert_validation_B"]) := by
    unfold reachesVerify
    decide
  ⟨hr, (C10_only_ca_and_one_crl K0 1 ["cert_validation_B"] cvBEnvOk hr).2.2.2.1⟩

theorem string_append_eq_self (s t : String) : s ++ t = s ↔ t = "" := by
  constructor
  · intro h
    have h1 := congrArg String.data h
    rw [String.data_append] at h1
    have h2 : t.data = [] := by simpa using h1
    exact String.ext h2
  · intro h
    subst h
    simp

theorem error_line_ne_empty (e : String) : "Error: " ++ e ++ "\n" ≠ "" := by
  intro h
  have h1 := congrArg String.length h
  simp only [String.length_append] at h1
  have h2 : "\n".length = 1 := by decide
  have h3 : "".length = 0 := by decide
  omega

theorem passesThrough_of_eq (errstr : Int → String) (ok : Int) (c : X509_STORE_CTX) (s : State)
    (out : Int × State)
    (h : out = (ok, if ok = 0 then s.eprintf ("Error: " ++ errstr c.error ++ "\n") else s)) :
    CallbackPassesThrough errstr ok c s out := by
  subst h
  by_cases hk : ok = 0
  · refine ⟨rfl, ?_, ?_, ?_, ?_, ?_⟩
    · simp [hk]
    · simp [hk]
    · intro _
      simp [hk]
    · intro hn
      exact absurd hk hn
    · simp only [hk, if_true, State.eprintf_stderr, ne_eq, string_append_eq_self, iff_true]
      exact error_line_ne_empty _
  · refine ⟨rfl, ?_, ?_, ?_, ?_, ?_⟩
    · simp [hk]
    · simp [hk]
    · intro h0
      exact absurd h0 hk
    · intro _
      simp [hk]
    · simp [hk]

/-- C8: in all three files, for every integer `ok` and every context,
`verify_callback(ok, ctx)` returns `ok` unchanged, and it writes to stderr if
and only if `ok` is 0, in which case it writes exactly the line `Error: `
followed by the error string of the error code of the context. -/
theorem C8_callback_passes_ok_through (ok : Int) (c : X509_STORE_CTX) (s : State) :
    (∀ env : CertValidation.Env,
      CallbackPassesThrough env.X509_verify_cert_error_string ok c s
        (CertValidation.verify_callback env ok c s)) ∧
    (∀ env : CertValidationB.Env,
      CallbackPassesThrough env.X509_verify_cert_error_string ok c s
        (CertValidationB.verify_callback env ok c s)) ∧
    (∀ env : ChainExample.Env,
      CallbackPassesThrough env.X509_verify_cert_error_string ok c s
        (ChainExample.verify_callback env ok c s)) :=
  ⟨fun _ => passesThrough_of_eq _ ok c s _ rfl,
   fun _ => passesThrough_of_eq _ ok c s _ rfl,
   fun _ => passesThrough_of_eq _ ok c s _ rfl⟩

/-- Witness for C8: a failing check on a revoked leaf stays failing and is
reported on stderr with one line. -/
theorem C8_callback_passes_ok_through_witness :
    (CertValidation.verify_callback cvEnvRevoked 0 ctxLeafRevoked State.start).1 = 0 ∧
    (CertValidation.verify_callback cvEnvRevoked 0 ctxLeafRevoked State.start).2.stderr
      = "Error: certificate revoked\n" :=
  have h := (C8_callback_passes_ok_through 0 ctxLeafRevoked State.start).1 cvEnvRevoked
  ⟨h.1, (h.2.2.2.1 rfl).trans (by decide)⟩

/-- C6, as stated, fails: a revoked leaf (depth 0) and a revoked issuer
(depth 1) are different failing certificates with the same error code, and the
callback of each of the three files writes the same text for both. -/
theorem C6_counterexample_same_text_for_two_certificates :
    ctxLeafRevoked.error = ctxIssuerRevoked.error ∧
    ctxLeafRevoked.error_depth ≠ ctxIssuerRevoked.error_depth ∧
    ctxLeafRevoked.current_cert ≠ ctxIssuerRevoked.current_cert ∧
    (CertValidation.verify_callback cvEnvRevoked 0 ctxLeafRevoked State.start).2.stderr
      = (CertValidation.verify_callback cvEnvRevoked 0 ctxIssuerRevoked State.start).2.stderr ∧
    (CertValidationB.verify_callback cvBEnvOk 0 ctxLeafRevoked State.start).2.stderr
      = (CertValidationB.verify_callback cvBEnvOk 0 ctxIssuerRevoked State.start).2.stderr ∧
    (ChainExample.verify_callback chainEnvOk 0 ctxLeafRevoked State.start).2.stderr
      = (ChainExample.verify_callback chainEnvOk 0 ctxIssuerRevoked State.start).2.stderr := by
  decide

/-- C6, amended: for every verification context passed to `verify_callback`
with `ok` equal to 0, the text written to stderr is `Error: ` followed by the
error string of the error code of the context; it names the rule violated and
nothing else, so two contexts with the same error code give the same result and
the same text, whatever the failing certificate. -/
theorem C6_text_depends_on_error_code_only (ok : Int) (c c' : X509_STORE_CTX) (s : State)
    (h : c.error = c'.error) :
    (∀ env : CertValidation.Env,
      CertValidation.verify_callback env ok c s = CertValidation.verify_callback env ok c' s ∧
      (ok = 0 → (CertValidation.verify_callback env ok c s).2.stderr
        = s.stderr ++ ("Error: " ++ env.X509_verify_cert_error_string c.error ++ "\n"))) ∧
    (∀ env : CertValidationB.Env,
      CertValidationB.verify_callback env ok c s = CertValidationB.verify_callback env ok c' s ∧
      (ok = 0 → (CertValidationB.verify_callback env ok c s).2.stderr
        = s.stderr ++ ("Error: " ++ env.X509_verify_cert_error_string c.error ++ "\n"))) ∧
    (∀ env : ChainExample.Env,
      ChainExample.verify_callback env ok c s = ChainExample.verify_callback env ok c' s ∧
      (ok = 0 → (ChainExample.verify_callback env ok c s).2.stderr
        = s.stderr ++ ("Error: " ++ env.X509_verify_cert_error_string c.error ++ "\n"))) := by
  refine ⟨fun env => ⟨?_, fun h0 => ?_⟩, fun env => ⟨?_, fun h0 => ?_⟩,
    fun env => ⟨?_, fun h0 => ?_⟩⟩
  · simp [CertValidation.verify_callback, h]
  · simp [CertValidation.verify_callback, h0]
  · simp [CertValidationB.verify_callback, h]
  · simp [CertValidationB.verify_callback, h0]
  · simp [ChainExample.verify_callback, h]
  · simp [ChainExample.verify_callback, h0]

/-- Witness for the amended C6: the revoked leaf and the revoked issuer. -/
theorem C6_text_depends_on_error_code_only_witness :
    ctxLeafRevoked.error = ctxIssuerRevoked.error ∧
    CertValidation.verify_callback cvEnvRevoked 0 ctxLeafRevoked State.start
      = CertValidation.verify_callback cvEnvRevoked 0 ctxIssuerRevoked State.start :=
  ⟨rfl, ((C6_text_depends_on_error_code_only 0 ctxLeafRevoked ctxIssuerRevoked State.start
    rfl).1 cvEnvRevoked).1⟩

theorem verifyCalls_append (a b : List Call) :
    verifyCalls (a ++ b) = verifyCalls a + verifyCalls b := by
  induction a with
  | nil => simp
  | cons c t ih =>
    cases c
    all_goals simp [ih]
    omega

theorem reaches_of_reached {run : Run} {pre : List Call} {ctx : Ptr} {r : Int}
    (h : Reached run pre ctx r) : reachesVerify run := by
  unfold reachesVerify
  rw [h.trace, verifyCalls_append]
  simp

theorem sameOutcome_of_runs {table : List (Nat × Int × String)} {file errq text : String}
    {r r' : Run} {pre pre' : List Call} {ctx ctx' : Ptr} {res : Int}
    (hinj : ∀ t ∈ table, ∀ t' ∈ table, t.1 = t'.1 → t = t')
    (ht : r.trace = r'.trace)
    (a : (SetupFailed r ∧ StopsAt table file errq r) ∨ (Reached r pre ctx res ∧ r.stderr = text))
    (b : (SetupFailed r' ∧ StopsAt table file errq r') ∨
      (Reached r' pre' ctx' res ∧ r'.stderr = text)) :
    SameOutcome r r' := by
  rcases a with ⟨hf, t, htm, hlen, herr⟩ | ⟨hr, herr⟩
  · rcases b with ⟨hf', t', htm', hlen', herr'⟩ | ⟨hr', -⟩
    · have hl : t.1 = t'.1 := by rw [← hlen, ← hlen', ht]
      have htt := hinj t htm t' htm' hl
      subst htt
      exact ⟨hf.status.trans hf'.status.symm, hf.stdout.trans hf'.stdout.symm,
        herr.trans herr'.symm⟩
    · have h1 := reaches_of_reached hr'
      unfold reachesVerify at h1
      rw [← ht, hf.noVerify] at h1
      exact absurd h1 (Nat.lt_irrefl 0)
  · rcases b with ⟨hf', -⟩ | ⟨hr', herr'⟩
    · have h1 := reaches_of_reached hr
      unfold reachesVerify at h1
      rw [ht, hf'.noVerify] at h1
      exact absurd h1 (Nat.lt_irrefl 0)
    · exact ⟨hr.status.trans hr'.status.symm, hr.stdout.trans hr'.stdout.symm,
        herr.trans herr'.symm⟩

theorem cv_run_cases (K : Hdr) (env : CertValidation.Env) (argc : Int) (argv : List String) :
    (SetupFailed (CertValidation.main K env argc argv) ∧
      StopsAt CertValidation.stops CertValidation.FILE env.ERR_print_errors_fp
        (CertValidation.main K env argc argv)) ∨
    (Reached (CertValidation.main K env argc argv) (CertValidation.setupCalls K env)
        env.X509_STORE_CTX_new env.X509_verify_cert.result ∧
      (CertValidation.main K env argc argv).stderr
        = verifyText env.X509_verify_cert_error_string env.X509_verify_cert ++
          (if env.X509_verify_cert.result = 1 then ""
           else errorLine CertValidation.FILE 79 "Error verifying the certificate" ++
             env.ERR_print_errors_fp)) := by
  by_cases h : CertValidation.setupOk env
  · exact Or.inr ⟨cv_setup_ok K env argc argv h, cv_reached_stderr K env argc argv h⟩
  · exact Or.inl ⟨cv_setup_failed K env argc argv h, cv_stops K env argc argv h⟩

theorem cvB_run_cases (K : Hdr) (env : CertValidationB.Env) (argc : Int) (argv : List String) :
    (SetupFailed (CertValidationB.main K env argc argv) ∧
      StopsAt CertValidationB.stops CertValidationB.FILE env.ERR_print_errors_fp
        (CertValidationB.main K env argc argv)) ∨
    (Reached (CertValidationB.main K env argc argv) (CertValidationB.setupCalls K env)
        env.X509_STORE_CTX_new env.X509_verify_cert.result ∧
      (CertValidationB.main K env argc argv).stderr
        = verifyText env.X509_verify_cert_error_string env.X509_verify_cert ++
          (if env.X509_verify_cert.result = 1 then ""
           else errorLine CertValidationB.FILE 114 "Error verifying the certificate" ++
             env.ERR_print_errors_fp)) := by
  by_cases h : CertValidationB.setupOk env
  · exact Or.inr ⟨cvB_setup_ok K env argc argv h, cvB_reached_stderr K env argc argv h⟩
  · exact Or.inl ⟨cvB_setup_failed K env argc argv h, cvB_stops K env argc argv h⟩

theorem chain_run_cases (env : ChainExample.Env) (argc : Int) (argv : List String) :
    (SetupFailed (ChainExample.main env argc argv) ∧
      StopsAt ChainExample.stops ChainExample.FILE env.ERR_print_errors_fp
        (ChainExample.main env argc argv)) ∨
    (Reached (ChainExample.main env argc argv) (ChainExample.setupCalls env)
        env.X509_STORE_CTX_new env.X509_verify_cert.result ∧
      (ChainExample.main env argc argv).stderr
        = verifyText env.X509_verify_cert_error_string env.X509_verify_cert ++
          (if env.X509_verify_cert.result = 1 then ""
           else errorLine ChainExample.FILE 75 "Error verifying the certificate" ++
             env.ERR_print_errors_fp)) := by
  by_cases h : ChainExample.setupOk env
  · exact Or.inr ⟨chain_setup_ok env argc argv h, chain_reached_stderr env argc argv h⟩
  · exact Or.inl ⟨chain_setup_failed env argc argv h, chain_stops env argc argv h⟩

/-- C7: for each of the three programs, two runs in which the external calls
made return the same results (the traces of calls with their results are equal,
and the library goes through the same callback invocations and writes the same
texts) have the same exit status and the same text on stdout and stderr,
whatever the command lines of the two runs and whatever calls that were never
made would have returned. -/
theorem C7_same_results_same_outcome (K : Hdr) (argc argc' : Int) (argv argv' : List String) :
    (∀ e f : CertValidation.Env,
      (CertValidation.main K e argc argv).trace = (CertValidation.main K f argc' argv').trace →
      CertValidation.SameLibrary e f →
      SameOutcome (CertValidation.main K e argc argv) (CertValidation.main K f argc' argv')) ∧
    (∀ e f : CertValidationB.Env,
      (CertValidationB.main K e argc argv).trace = (CertValidationB.main K f argc' argv').trace →
      CertValidationB.SameLibrary e f →
      SameOutcome (CertValidationB.main K e argc argv) (CertValidationB.main K f argc' argv')) ∧
    (∀ e f : ChainExample.Env,
      (ChainExample.main e argc argv).trace = (ChainExample.main f argc' argv').trace →
      ChainExample.SameLibrary e f →
      SameOutcome (ChainExample.main e argc argv) (ChainExample.main f argc' argv')) := by
  refine ⟨fun e f ht hl => ?_, fun e f ht hl => ?_, fun e f ht hl => ?_⟩
  · obtain ⟨hv, hs, hq⟩ := hl
    have a := cv_run_cases K e argc argv
    have b := cv_run_cases K f argc' argv'
    rw [← hv, ← hs, ← hq] at b
    exact sameOutcome_of_runs (by decide) ht a b
  · obtain ⟨hv, hs, hq⟩ := hl
    have a := cvB_run_cases K e argc argv
    have b := cvB_run_cases K f argc' argv'
    rw [← hv, ← hs, ← hq] at b
    exact sameOutcome_of_runs (by decide) ht a b
  · obtain ⟨hv, hs, hq⟩ := hl
    have a := chain_run_cases e argc argv
    have b := chain_run_cases f argc' argv'
    rw [← hv, ← hs, ← hq] at b
    exact sameOutcome_of_runs (by decide) ht a b

/-- Witness for C7: two runs that both stop at the CRL file, started with
different command lines, in worlds that differ in what the calls never made
would have returned. -/
theorem C7_same_results_same_outcome_witness :
    (CertValidation.main K0 cvEnvNoCRL 1 ["cert_validation"]).trace
      = (CertValidation.main K0 cvEnvNoCRLOther 2 ["cert_validation", "again"]).trace ∧
    CertValidation.SameLibrary cvEnvNoCRL cvEnvNoCRLOther ∧
    SameOutcome (CertValidation.main K0 cvEnvNoCRL 1 ["cert_validation"])
      (CertValidation.main K0 cvEnvNoCRLOther 2 ["cert_validation", "again"]) :=
  have ht : (CertValidation.main K0 cvEnvNoCRL 1 ["cert_validation"]).trace
      = (CertValidation.main K0 cvEnvNoCRLOther 2 ["cert_validation", "again"]).trace := by
    decide
  have hl : CertValidation.SameLibrary cvEnvNoCRL cvEnvNoCRLOther := ⟨rfl, rfl, rfl⟩
  ⟨ht, hl, (C7_same_results_same_outcome K0 1 2 ["cert_validation"]
    ["cert_validation", "again"]).1 cvEnvNoCRL cvEnvNoCRLOther ht hl⟩

/-! ## The observations are not vacuous -/

theorem storeFrozenAfterInit_rejects_late_flags :
    storeFrozenAfterInit
      [Call.X509_STORE_CTX_init 401 201 11 0 1, Call.X509_STORE_set_flags 201 12] = false := by
  decide

theorem verifyCalls_counts_each_call :
    verifyCalls [Call.X509_verify_cert 401 0, Call.X509_verify_cert 401 1] = 2 := by
  decide

theorem x509StackContents_sees_a_push :
    x509StackContents 501 [Call.sk_X509_new_null 501, Call.sk_X509_push 501 13 1] = [13] := by
  decide

end Pulp
